import Mathlib

/-!
Verification development for the PDIS ticket lifecycle manager.

The definitions below are a shallow embedding of the TypeScript API route
handlers of the repository.  Each Prisma database call is modelled as one
atomic operation on an explicit `DB` state, and each Next.js route handler
becomes a pure function from the pre-state (plus its request data and the
ambient clock) to a response together with the post-state.  JavaScript
truthiness on nullable strings (`null`, `undefined` and `""` are falsy) is
modelled with `Option String` plus explicit emptiness tests.
-/

namespace PDIS

/-- Ticket lifecycle states (the Prisma `TicketStatus` enum). -/
inductive TicketStatus where
  | FOR_PD_APPROVAL
  | SUBMITTED
  | DEV_IN_PROGRESS
  | QA_TESTING
  | PD_TESTING
  | FOR_DEPLOYMENT
  | DEPLOYED
  | CANCELLED
deriving DecidableEq, Repr

/-- Ticket system roles (the Prisma `TicketRole` enum). -/
inductive TicketRole where
  | NORMAL
  | DEVELOPER
  | QA
  | PROJECT_MANAGER
deriving DecidableEq, Repr

/-- Ticket categories (the Prisma `TicketCategory` enum). -/
inductive TicketCategory where
  | BUG
  | FEATURE_REQUEST
  | ENHANCEMENT
  | SUPPORT
  | TASK
  | OTHER
deriving DecidableEq, Repr

/-- Ticket priorities (the Prisma `TicketPriority` enum). -/
inductive TicketPriority where
  | LOW
  | MEDIUM
  | HIGH
  | URGENT
deriving DecidableEq, Repr

/-- The fields of a session user / identity relevant to the handlers:
`session.user` carries `id`, `email`, `ticketRole` and the three elevated
organizational flags.  `email` is `Option` because next-auth emails are
nullable. -/
structure User where
  id : String
  email : Option String
  ticketRole : TicketRole
  isDepartmentHead : Bool
  isOfficeHead : Bool
  isGroupDirector : Bool
deriving DecidableEq, Repr

/-- The ticket record (the Prisma `Ticket` model, presentation-only fields
such as `stepsToReproduce` kept where a handler writes them). -/
structure Ticket where
  id : String
  ticketNumber : String
  title : String
  description : String
  category : TicketCategory
  priority : TicketPriority
  status : TicketStatus
  submitterId : String
  processOwnerId : Option String
  assignedDeveloperId : Option String
  assignedQaId : Option String
  contactEmail : String
  contactPhone : Option String
  stepsToReproduce : Option String
  createdAt : Nat
  submittedAt : Option Nat
  cancelledAt : Option Nat
  deployedAt : Option Nat
  cancelledById : Option String
  cancellationReason : Option String
deriving DecidableEq, Repr

/-- One audit record (the Prisma `TicketStatusHistory` model). -/
structure HistoryEntry where
  ticketId : String
  fromStatus : Option TicketStatus
  toStatus : TicketStatus
  changedById : String
  reason : String
  createdAt : Nat
deriving DecidableEq, Repr

/-- The persistent state visible to the handlers: the ticket table, the
user table and the append-only status history table. -/
structure DB where
  tickets : List Ticket
  users : List User
  history : List HistoryEntry
deriving DecidableEq, Repr

/-- A structured error response: HTTP status code plus the handler's
`error` message string. -/
structure ApiError where
  status : Nat
  msg : String
deriving DecidableEq, Repr

/-- JavaScript `x || default` on a nullable string: `null`, `undefined`
and `""` all fall through to the default. -/
def jsOr (o : Option String) (d : String) : String :=
  match o with
  | none => d
  | some s => if s = "" then d else s

/-- JavaScript falsiness of a nullable string (`!x`). -/
def jsFalsy (o : Option String) : Bool :=
  match o with
  | none => true
  | some s => s == ""

/-- ASCII lower-casing of a string, modelling `email.toLowerCase()`. -/
def jsToLowerCase (s : String) : String :=
  String.mk (s.data.map Char.toLower)

/-- Models `prisma.ticket.findUnique({ where: { id } })`. -/
def findTicket (db : DB) (id : String) : Option Ticket :=
  db.tickets.find? (fun t => t.id == id)

/-- Models `prisma.user.findUnique({ where: { id } })`. -/
def findUser (db : DB) (id : String) : Option User :=
  db.users.find? (fun u => u.id == id)

/-- Models `prisma.ticket.update({ where: { id }, data })`: rewrite the ticket(s)
whose id matches. -/
def updateTicket (db : DB) (id : String) (f : Ticket → Ticket) : DB :=
  { db with tickets := db.tickets.map (fun t => if t.id == id then f t else t) }

/-- Models `prisma.ticketStatusHistory.create`: append one audit record. -/
def appendHistory (db : DB) (e : HistoryEntry) : DB :=
  { db with history := db.history ++ [e] }

/-- The status of the ticket with the given id, as an observation on a
database state. -/
def statusOf (db : DB) (id : String) : Option TicketStatus :=
  (findTicket db id).map (fun t => t.status)

/-! ### Access control (`src/lib/access-control.ts`) -/

/-- The hardcoded approver allow-list `TICKET_APPROVERS`. -/
def TICKET_APPROVERS : List String :=
  [ "von.mauleon@projectduo.com.ph"
  , "vida.gerado@projectduo.com.ph"
  , "julie.mendoza@projectduo.com.ph"
  , "av.mauleon@gmail.com" ]

/-- The hardcoded creator allow-list `ALLOWED_TICKET_CREATORS`. -/
def ALLOWED_TICKET_CREATORS : List String :=
  [ "torie.gequillana@projectduo.com.ph"
  , "camila.sosito@projectduo.com.ph"
  , "thess.bunyad@projectduo.com.ph"
  , "meann.tabilog@projectduo.com.ph"
  , "vida.gerado@projectduo.com.ph"
  , "jerome.staana@projectduo.com.ph"
  , "karen.vengco@projectduo.com.ph"
  , "wilda.constantino@projectduo.com.ph"
  , "jen.ocenar@projectduo.com.ph"
  , "tin.lapuz@projectduo.com.ph"
  , "mavi.villanueva@projectduo.com.ph"
  , "arlene.cabato@projectduo.com.ph"
  , "nancy.marcelo@projectduo.com.ph"
  , "elvin.olano@projectduo.com.ph"
  , "julie.mendoza@projectduo.com.ph"
  , "von.mauleon@projectduo.com.ph"
  , "av.mauleon@gmail.com" ]

/-- Embeds `isTicketApprover(email)`: falsy email is rejected, otherwise the
lower-cased email is looked up in the approver allow-list. -/
def isTicketApprover (email : Option String) : Bool :=
  match email with
  | none => false
  | some e => if e = "" then false else TICKET_APPROVERS.contains (jsToLowerCase e)

/-- Embeds `canCreateTickets(email)`: falsy email is rejected, otherwise the
lower-cased email is looked up in the creator allow-list. -/
def canCreateTickets (email : Option String) : Bool :=
  match email with
  | none => false
  | some e => if e = "" then false else ALLOWED_TICKET_CREATORS.contains (jsToLowerCase e)

/-- Embeds `getAccessDenialReason('approve')`. -/
def approveDenialMsg : String :=
  "You do not have permission to approve tickets. Please contact your administrator."

/-- Embeds `getAccessDenialReason('create')`. -/
def createDenialMsg : String :=
  "You do not have permission to create tickets. Please contact your administrator."

/-- Embeds `validateApiKey` (`src/lib/api-auth.ts`): both the `x-api-key` header
and the `SAP_API_KEY` environment variable must be truthy, and then they
are compared as exact strings. -/
def validateApiKey (apiKey : Option String) (validKey : Option String) : Bool :=
  if jsFalsy apiKey || jsFalsy validKey then false
  else apiKey == validKey

/-- The `canView` check of `GET /api/tickets/[id]`: submitter, process
owner, assigned developer, assigned QA, an elevated organizational flag,
or the project-manager role. -/
def canView (user : User) (ticket : Ticket) : Bool :=
  ticket.submitterId == user.id ||
  ticket.processOwnerId == some user.id ||
  ticket.assignedDeveloperId == some user.id ||
  ticket.assignedQaId == some user.id ||
  user.isDepartmentHead ||
  user.isOfficeHead ||
  user.isGroupDirector ||
  user.ticketRole == TicketRole.PROJECT_MANAGER

/-- The `canComment` check of `POST /api/tickets/[id]/comments`:
submitter, process owner, assigned developer, assigned QA, or an elevated
organizational flag.  (Note: unlike `canView`, no project-manager
disjunct.) -/
def canComment (user : User) (ticket : Ticket) : Bool :=
  ticket.submitterId == user.id ||
  ticket.processOwnerId == some user.id ||
  ticket.assignedDeveloperId == some user.id ||
  ticket.assignedQaId == some user.id ||
  user.isDepartmentHead ||
  user.isOfficeHead ||
  user.isGroupDirector

/-! ### The status-update route (`src/app/api/tickets/[id]/status/route.ts`) -/

/-- Embeds `generateDefaultReason(newStatus)`. -/
def generateDefaultReason (newStatus : TicketStatus) : String :=
  match newStatus with
  | TicketStatus.QA_TESTING => "Development completed, ready for QA testing"
  | TicketStatus.PD_TESTING => "QA testing completed, ready for PD testing"
  | TicketStatus.FOR_DEPLOYMENT => "PD testing approved, ready for deployment"
  | TicketStatus.DEPLOYED => "Deployed to production"
  | _ => "Status updated"

/-- Embeds `validateStatusTransition(currentStatus, newStatus, user, ticket)`:
the chain of if-statements of the status route, returning either
permission to proceed or the structured refusal. -/
def validateStatusTransition (currentStatus newStatus : TicketStatus)
    (user : User) (ticket : Ticket) : Except ApiError Unit :=
  if currentStatus = TicketStatus.DEV_IN_PROGRESS ∧ newStatus = TicketStatus.QA_TESTING then
    if ticket.assignedQaId.isNone then
      Except.error ⟨400, "A QA tester must be assigned before moving to QA Testing"⟩
    else
      let isDeveloper := ticket.assignedDeveloperId == some user.id
      let isPM := user.ticketRole == TicketRole.PROJECT_MANAGER
      if !isDeveloper && !isPM then
        Except.error ⟨403, "Only the assigned developer or project manager can move to QA Testing"⟩
      else Except.ok ()
  else if currentStatus = TicketStatus.QA_TESTING ∧ newStatus = TicketStatus.PD_TESTING then
    let isQA := ticket.assignedQaId == some user.id
    let isPM := user.ticketRole == TicketRole.PROJECT_MANAGER
    if !isQA && !isPM then
      Except.error ⟨403, "Only the assigned QA or project manager can move to PD Testing"⟩
    else Except.ok ()
  else if currentStatus = TicketStatus.PD_TESTING ∧ newStatus = TicketStatus.FOR_DEPLOYMENT then
    let isApprover := isTicketApprover user.email
    let isProcessOwner := user.isDepartmentHead || user.isOfficeHead || user.isGroupDirector
    let isPM := user.ticketRole == TicketRole.PROJECT_MANAGER
    if !isApprover && !isProcessOwner && !isPM then
      Except.error ⟨403, "Only approvers, process owners, or project managers can approve for deployment"⟩
    else Except.ok ()
  else if currentStatus = TicketStatus.FOR_DEPLOYMENT ∧ newStatus = TicketStatus.DEPLOYED then
    if user.ticketRole ≠ TicketRole.PROJECT_MANAGER then
      Except.error ⟨403, "Only project managers can mark tickets as deployed"⟩
    else Except.ok ()
  else
    Except.error ⟨400, "Invalid status transition"⟩

/-- Membership of `newStatus` in the zod enum of the status route
(`["QA_TESTING", "PD_TESTING", "FOR_DEPLOYMENT", "DEPLOYED"]`). -/
def statusRouteEnum (s : TicketStatus) : Bool :=
  s == TicketStatus.QA_TESTING || s == TicketStatus.PD_TESTING ||
  s == TicketStatus.FOR_DEPLOYMENT || s == TicketStatus.DEPLOYED

/-- Embeds `POST /api/tickets/[id]/status`: session check, zod parse, ticket
lookup, transition validation, then the ticket update followed by the
history insert (two separate repository writes, as in the source). -/
def statusPost (db : DB) (session : Option User) (id : String)
    (newStatus : TicketStatus) (reason : Option String) (now : Nat) :
    Except ApiError (String × TicketStatus) × DB :=
  match session with
  | none => (Except.error ⟨401, "Unauthorized"⟩, db)
  | some user =>
    if !statusRouteEnum newStatus then
      (Except.error ⟨400, "Validation failed"⟩, db)
    else
      match findTicket db id with
      | none => (Except.error ⟨404, "Ticket not found"⟩, db)
      | some ticket =>
        match validateStatusTransition ticket.status newStatus user ticket with
        | Except.error e => (Except.error e, db)
        | Except.ok _ =>
          let db1 := updateTicket db id (fun t =>
            { t with
              status := newStatus
              deployedAt := if newStatus = TicketStatus.DEPLOYED then some now else t.deployedAt })
          let db2 := appendHistory db1
            { ticketId := id
              fromStatus := some ticket.status
              toStatus := newStatus
              changedById := user.id
              reason := jsOr reason (generateDefaultReason newStatus)
              createdAt := now }
          (Except.ok (id, newStatus), db2)

/-! ### The approvals route (`src/app/api/approvals/route.ts`, POST) -/

/-- The zod `action` enum of the approvals route. -/
inductive ApprovalAction where
  | approve
  | reject
deriving DecidableEq, Repr

/-- The validation phase of `POST /api/approvals/[id]`: everything up to
and including the status guard — reads only. -/
def approvalsValidate (db : DB) (user : User) (id : String)
    (action : ApprovalAction) (reason : Option String) :
    Except ApiError Ticket :=
  if !isTicketApprover user.email then
    Except.error ⟨403, approveDenialMsg⟩
  else
    match findTicket db id with
    | none => Except.error ⟨404, "Ticket not found"⟩
    | some ticket =>
      if ticket.status ≠ TicketStatus.FOR_PD_APPROVAL then
        Except.error ⟨400, "Ticket is not pending approval"⟩
      else
        match action with
        | ApprovalAction.approve => Except.ok ticket
        | ApprovalAction.reject =>
          if jsFalsy reason then Except.error ⟨400, "Rejection reason is required"⟩
          else Except.ok ticket

/-- The `prisma.ticket.update` write of `POST /api/approvals/[id]`
(approve sets `SUBMITTED`/process owner/`submittedAt`; reject sets
`CANCELLED` and the cancellation fields). -/
def approvalsApplyUpdate (db : DB) (user : User) (id : String)
    (action : ApprovalAction) (reason : Option String) (now : Nat) : DB :=
  match action with
  | ApprovalAction.approve =>
    updateTicket db id (fun t =>
      { t with
        status := TicketStatus.SUBMITTED
        processOwnerId := some user.id
        submittedAt := some now })
  | ApprovalAction.reject =>
    updateTicket db id (fun t =>
      { t with
        status := TicketStatus.CANCELLED
        processOwnerId := some user.id
        cancelledAt := some now
        cancelledById := some user.id
        cancellationReason := some (jsOr reason "") })

/-- The `prisma.ticketStatusHistory.create` write of
`POST /api/approvals/[id]`. -/
def approvalsAppendHistory (db : DB) (user : User) (id : String)
    (action : ApprovalAction) (reason : Option String) (now : Nat) : DB :=
  match action with
  | ApprovalAction.approve =>
    appendHistory db
      { ticketId := id
        fromStatus := some TicketStatus.FOR_PD_APPROVAL
        toStatus := TicketStatus.SUBMITTED
        changedById := user.id
        reason := jsOr reason "Approved by process owner"
        createdAt := now }
  | ApprovalAction.reject =>
    appendHistory db
      { ticketId := id
        fromStatus := some TicketStatus.FOR_PD_APPROVAL
        toStatus := TicketStatus.CANCELLED
        changedById := user.id
        reason := jsOr reason ""
        createdAt := now }

/-- Embeds `POST /api/approvals/[id]`: the whole handler, i.e. the validation
phase followed by the two writes run back to back. -/
def approvalsPost (db : DB) (session : Option User) (id : String)
    (action : ApprovalAction) (reason : Option String) (now : Nat) :
    Except ApiError (String × TicketStatus) × DB :=
  match session with
  | none => (Except.error ⟨401, "Unauthorized"⟩, db)
  | some user =>
    match approvalsValidate db user id action reason with
    | Except.error e => (Except.error e, db)
    | Except.ok _ =>
      let db1 := approvalsApplyUpdate db user id action reason now
      let db2 := approvalsAppendHistory db1 user id action reason now
      let newStatus := match action with
        | ApprovalAction.approve => TicketStatus.SUBMITTED
        | ApprovalAction.reject => TicketStatus.CANCELLED
      (Except.ok (id, newStatus), db2)

/-! ### The cancel route (`src/app/api/tickets/[id]/route.ts`, PATCH) -/

/-- Embeds `PATCH /api/tickets/[id]`: the only accepted update is the submitter
cancelling a ticket that is awaiting approval. -/
def ticketPatch (db : DB) (session : Option User) (id : String)
    (bodyStatus : Option TicketStatus) (bodyReason : Option String) (now : Nat) :
    Except ApiError (String × TicketStatus) × DB :=
  match session with
  | none => (Except.error ⟨401, "Unauthorized"⟩, db)
  | some user =>
    match findTicket db id with
    | none => (Except.error ⟨404, "Ticket not found"⟩, db)
    | some ticket =>
      if bodyStatus = some TicketStatus.CANCELLED then
        if ticket.submitterId ≠ user.id then
          (Except.error ⟨403, "Only the ticket submitter can cancel"⟩, db)
        else if ticket.status ≠ TicketStatus.FOR_PD_APPROVAL then
          (Except.error ⟨400, "Can only cancel tickets awaiting approval"⟩, db)
        else
          let db1 := updateTicket db id (fun t =>
            { t with
              status := TicketStatus.CANCELLED
              cancelledAt := some now
              cancelledById := some user.id
              cancellationReason := some (jsOr bodyReason "Cancelled by submitter") })
          let db2 := appendHistory db1
            { ticketId := id
              fromStatus := some TicketStatus.FOR_PD_APPROVAL
              toStatus := TicketStatus.CANCELLED
              changedById := user.id
              reason := jsOr bodyReason "Cancelled by submitter"
              createdAt := now }
          (Except.ok (id, TicketStatus.CANCELLED), db2)
      else
        (Except.error ⟨400, "Invalid update"⟩, db)

/-! ### The assignment route (`/api/pm/tickets/[id]/assign`, POST) -/

/-- The zod body of the assign route; `none` models an absent field and
`some ""` the (falsy) empty string. -/
structure AssignRequest where
  developerId : Option String
  qaId : Option String
  startDevelopment : Option Bool
deriving DecidableEq, Repr

/-- Ticket statuses in which assignment is allowed (`validStatuses`). -/
def assignValidStatuses (s : TicketStatus) : Bool :=
  s == TicketStatus.SUBMITTED || s == TicketStatus.DEV_IN_PROGRESS ||
  s == TicketStatus.QA_TESTING || s == TicketStatus.PD_TESTING

/-- The developer/QA reference check of the assign route: an absent field
changes nothing, a truthy id must name a user with the required role, and
a falsy (empty) id clears the assignment.  Returns the update to apply to
the assignment column, if any. -/
def checkAssignee (db : DB) (field : Option String) (role : TicketRole)
    (errMsg : String) : Except ApiError (Option (Option String)) :=
  match field with
  | none => Except.ok none
  | some v =>
    if v ≠ "" then
      match findUser db v with
      | some u =>
        if u.ticketRole = role then Except.ok (some (some v))
        else Except.error ⟨400, errMsg⟩
      | none => Except.error ⟨400, errMsg⟩
    else Except.ok (some none)

/-- Embeds `POST /api/pm/tickets/[id]/assign`: PM-only; optionally reassigns the
developer and/or QA; when `startDevelopment` is truthy and the ticket is
in `SUBMITTED`, also moves it to `DEV_IN_PROGRESS` and appends a history
entry.  Note that no check of `assignedDeveloperId` guards the status
change, and that `startDevelopment` on a non-`SUBMITTED` ticket is
simply skipped. -/
def assignPost (db : DB) (session : Option User) (id : String)
    (req : AssignRequest) (now : Nat) :
    Except ApiError (String × TicketStatus) × DB :=
  match session with
  | none => (Except.error ⟨401, "Unauthorized"⟩, db)
  | some user =>
    if user.ticketRole ≠ TicketRole.PROJECT_MANAGER then
      (Except.error ⟨403, "Forbidden"⟩, db)
    else
      match findTicket db id with
      | none => (Except.error ⟨404, "Ticket not found"⟩, db)
      | some ticket =>
        if !assignValidStatuses ticket.status then
          (Except.error ⟨400, "Ticket cannot be assigned in its current status"⟩, db)
        else
          match checkAssignee db req.developerId TicketRole.DEVELOPER "Invalid developer selected" with
          | Except.error e => (Except.error e, db)
          | Except.ok devUpd =>
            match checkAssignee db req.qaId TicketRole.QA "Invalid QA selected" with
            | Except.error e => (Except.error e, db)
            | Except.ok qaUpd =>
              let statusUpd : Option TicketStatus :=
                if req.startDevelopment.getD false ∧ ticket.status = TicketStatus.SUBMITTED then
                  some TicketStatus.DEV_IN_PROGRESS
                else none
              let db1 := updateTicket db id (fun t =>
                { t with
                  assignedDeveloperId := devUpd.getD t.assignedDeveloperId
                  assignedQaId := qaUpd.getD t.assignedQaId
                  status := statusUpd.getD t.status })
              let db2 :=
                match statusUpd with
                | some st =>
                  appendHistory db1
                    { ticketId := id
                      fromStatus := some ticket.status
                      toStatus := st
                      changedById := user.id
                      reason := "Development started by Project Manager"
                      createdAt := now }
                | none => db1
              (Except.ok (id, statusUpd.getD ticket.status), db2)

/-! ### Ticket number generation (`generateTicketNumber`, duplicated in
`src/app/api/tickets` and `src/app/api/external/sap/tickets`) -/

/-- The decimal digit character for `d < 10`. -/
def digitChar (d : Nat) : Char := Char.ofNat (48 + d)

/-- Is the character a decimal digit? -/
def isDigitChar (c : Char) : Bool := 48 ≤ c.toNat && c.toNat ≤ 57

/-- Fuel-driven most-significant-first decimal rendering; with fuel `n`
this models `Number.prototype.toString()` for naturals. -/
def natCharsAux : Nat → Nat → List Char
  | 0, n => [digitChar (n % 10)]
  | fuel+1, n =>
    if n < 10 then [digitChar n]
    else natCharsAux fuel (n / 10) ++ [digitChar (n % 10)]

/-- The digit-character list of a natural number (fuel instantiated). -/
def natChars (n : Nat) : List Char := natCharsAux n n

/-- Decimal rendering of a natural number (JavaScript `toString()`). -/
def natToString (n : Nat) : String := String.mk (natChars n)

/-- JavaScript `String.prototype.padStart(len, c)`. -/
def padStartStr (s : String) (len : Nat) (c : Char) : String :=
  String.mk (List.replicate (len - s.data.length) c ++ s.data)

/-- JavaScript `s.slice(-2)`: the last two characters (the whole string
when shorter). -/
def jsSliceLast2 (s : String) : String :=
  String.mk (s.data.drop (s.data.length - 2))

/-- Code-unit comparison of character lists, modelling the lexicographic
order used to sort ticket numbers (`orderBy: { ticketNumber: "desc" }`;
ticket numbers are plain ASCII so any byte-wise or codepoint-wise
collation agrees with this). -/
def listLtB : List Char → List Char → Bool
  | [], [] => false
  | [], _ :: _ => true
  | _ :: _, [] => false
  | a :: as, b :: bs =>
    if a.toNat < b.toNat then true
    else if b.toNat < a.toNat then false
    else listLtB as bs

/-- Lexicographic string comparison on code units. -/
def strLtB (a b : String) : Bool := listLtB a.data b.data

/-- Models `findFirst` with `orderBy: { ticketNumber: "desc" }`: the greatest
string of the list, `none` on the empty list. -/
def maxTicketNumber : List String → Option String
  | [] => none
  | x :: xs => some (xs.foldl (fun a b => if strLtB a b then b else a) x)

/-- Is `pre` a prefix of `l`? -/
def listIsPfxOf : List Char → List Char → Bool
  | [], _ => true
  | _ :: _, [] => false
  | a :: as, b :: bs => a == b && listIsPfxOf as bs

/-- JavaScript/Prisma `startsWith`. -/
def jsStartsWith (s pfxStr : String) : Bool := listIsPfxOf pfxStr.data s.data

/-- Helper of `jsSplit`: the first separator-free segment and the later
segments of a character list. -/
def splitAux (sep : Char) : List Char → List Char × List (List Char)
  | [] => ([], [])
  | a :: as =>
    let r := splitAux sep as
    if a = sep then ([], r.1 :: r.2) else (a :: r.1, r.2)

/-- JavaScript `s.split(sep)` for a single-character separator. -/
def jsSplit (sep : Char) (s : String) : List String :=
  let r := splitAux sep s.data
  (r.1 :: r.2).map String.mk

/-- The numeric value of a most-significant-first digit-character list. -/
def charsVal : List Char → Nat
  | [] => 0
  | c :: cs => (c.toNat - 48) * 10 ^ cs.length + charsVal cs

/-- JavaScript `parseInt(s, 10)` restricted to the shapes produced here:
the longest digit prefix of the string, `none` (NaN) when there is no
digit prefix.  (Sign and whitespace handling of full `parseInt` is not
reachable from the call site.) -/
def parseIntDec (s : String) : Option Nat :=
  let ds := s.data.takeWhile isDigitChar
  if ds.isEmpty then none else some (charsVal ds)

/-- The `TKT-YYMM` month key: `TKT-` followed by the last two digits of
the year and the zero-padded month (the JavaScript source works with a
0-based month and adds one; `month` here is already the 1-based month). -/
def ymPfx (year month : Nat) : String :=
  "TKT-" ++ jsSliceLast2 (natToString year) ++ padStartStr (natToString month) 2 '0'

/-- The full ticket number for a month key and a sequence value. -/
def mkTicketNumber (year month seq : Nat) : String :=
  ymPfx year month ++ "-" ++ padStartStr (natToString seq) 4 '0'

/-- The character list of the zero-padded sequence field. -/
def pad4chars (n : Nat) : List Char :=
  List.replicate (4 - (natChars n).length) '0' ++ natChars n

/-- Embeds `generateTicketNumber`: find the last (string-wise greatest) ticket
number carrying this month's prefix, parse its third dash-separated
segment, add one, and left-pad to four digits.  When the parse yields
NaN the source would render `"NaN"`; that branch is kept explicit. -/
def generateTicketNumber (existing : List String) (year month : Nat) : String :=
  let pfx := ymPfx year month
  match maxTicketNumber (existing.filter (fun tn => jsStartsWith tn pfx)) with
  | none => pfx ++ "-" ++ padStartStr (natToString 1) 4 '0'
  | some last =>
    match parseIntDec ((jsSplit '-' last).getD 2 "") with
    | none => pfx ++ "-" ++ padStartStr "NaN" 4 '0'
    | some lastSeq => pfx ++ "-" ++ padStartStr (natToString (lastSeq + 1)) 4 '0'

/-! ### Ticket creation (`POST /api/tickets`, `src/unnamed/part_005`) -/

/-- The zod-validated creation body (`createTicketSchema` after a
successful parse). -/
structure CreateRequest where
  title : String
  description : String
  category : TicketCategory
  priority : TicketPriority
  stepsToReproduce : Option String
  contactEmail : String
  contactPhone : Option String
deriving DecidableEq, Repr

/-- Embeds `POST /api/tickets`: allow-listed creators only; creates the ticket in
`FOR_PD_APPROVAL` and appends the creation history entry
(`fromStatus = null`).  `parsed = none` models a zod parse failure and
`newId` the fresh cuid picked by the store. -/
def ticketsPost (db : DB) (session : Option User) (parsed : Option CreateRequest)
    (newId : String) (year month : Nat) (now : Nat) :
    Except ApiError (String × String) × DB :=
  match session with
  | none => (Except.error ⟨401, "Unauthorized"⟩, db)
  | some user =>
    if !canCreateTickets user.email then
      (Except.error ⟨403, createDenialMsg⟩, db)
    else
      match parsed with
      | none => (Except.error ⟨400, "Validation failed"⟩, db)
      | some req =>
        let num := generateTicketNumber (db.tickets.map (fun t => t.ticketNumber)) year month
        let t : Ticket :=
          { id := newId
            ticketNumber := num
            title := req.title
            description := req.description
            category := req.category
            priority := req.priority
            status := TicketStatus.FOR_PD_APPROVAL
            submitterId := user.id
            processOwnerId := none
            assignedDeveloperId := none
            assignedQaId := none
            contactEmail := req.contactEmail
            contactPhone := req.contactPhone
            stepsToReproduce := req.stepsToReproduce
            createdAt := now
            submittedAt := none
            cancelledAt := none
            deployedAt := none
            cancelledById := none
            cancellationReason := none }
        let db1 : DB := { db with tickets := db.tickets ++ [t] }
        let db2 := appendHistory db1
          { ticketId := newId
            fromStatus := none
            toStatus := TicketStatus.FOR_PD_APPROVAL
            changedById := user.id
            reason := "Ticket created"
            createdAt := now }
        (Except.ok (newId, num), db2)

/-! ### SAP integration creation (`POST /api/external/sap/tickets`) -/

/-- The fixed integration submitter identity. -/
def SAP_SUBMITTER_ID : String := "cmg07ttto0002pb0k2i3w9qcu"

/-- The zod-validated SAP body; the three JSON payloads only feed the
formatted description, so their serialized forms are carried as
strings. -/
structure SapRequest where
  sapPayload : String
  sapResponse : String
  formData : String
deriving DecidableEq, Repr

/-- Embeds `formatDescription`: the fixed banner followed by the three payload
dumps. -/
def formatDescription (r : SapRequest) : String :=
  "SAP Integration Error - Automatic ticket created by SAP system\n\nSAP PAYLOAD:\n"
    ++ r.sapPayload ++ "\n\nSAP RESPONSE:\n" ++ r.sapResponse
    ++ "\n\nFORM DATA:\n" ++ r.formData

/-- Embeds `POST /api/external/sap/tickets`: shared-secret gate, fixed submitter
lookup, then creation directly in `SUBMITTED` plus the creation history
entry.  `apiKey` is the `x-api-key` header and `envKey` the server-side
`SAP_API_KEY` environment variable (`none` = unset). -/
def sapTicketsPost (db : DB) (apiKey envKey : Option String)
    (parsed : Option SapRequest) (newId : String) (year month : Nat) (now : Nat) :
    Except ApiError (String × String) × DB :=
  if !validateApiKey apiKey envKey then
    (Except.error ⟨401, "Unauthorized - Invalid or missing API key"⟩, db)
  else
    match parsed with
    | none => (Except.error ⟨400, "Validation failed"⟩, db)
    | some req =>
      match findUser db SAP_SUBMITTER_ID with
      | none => (Except.error ⟨404, "Configuration error - Submitter user not found"⟩, db)
      | some submitter =>
        let num := generateTicketNumber (db.tickets.map (fun t => t.ticketNumber)) year month
        let t : Ticket :=
          { id := newId
            ticketNumber := num
            title := "SAP Integration Fail"
            description := formatDescription req
            category := TicketCategory.BUG
            priority := TicketPriority.URGENT
            status := TicketStatus.SUBMITTED
            submitterId := SAP_SUBMITTER_ID
            processOwnerId := none
            assignedDeveloperId := none
            assignedQaId := none
            contactEmail := jsOr submitter.email "sap-integration@projectduo.ph"
            contactPhone := none
            stepsToReproduce := none
            createdAt := now
            submittedAt := some now
            cancelledAt := none
            deployedAt := none
            cancelledById := none
            cancellationReason := none }
        let db1 : DB := { db with tickets := db.tickets ++ [t] }
        let db2 := appendHistory db1
          { ticketId := newId
            fromStatus := none
            toStatus := TicketStatus.SUBMITTED
            changedById := SAP_SUBMITTER_ID
            reason := "Auto-created by SAP integration"
            createdAt := now }
        (Except.ok (newId, num), db2)

/-! ### Ticket detail view (`GET /api/tickets/[id]`) -/

/-- The descending-`createdAt` order on history entries
(`orderBy: { createdAt: "desc" }`). -/
def histDescRel (a b : HistoryEntry) : Prop := b.createdAt ≤ a.createdAt

instance : DecidableRel histDescRel := fun a b => Nat.decLe b.createdAt a.createdAt

instance : IsTotal HistoryEntry histDescRel :=
  ⟨fun a b => Nat.le_total b.createdAt a.createdAt⟩

instance : IsTrans HistoryEntry histDescRel :=
  ⟨fun _ _ _ hab hbc => Nat.le_trans hbc hab⟩

/-- Models `orderBy: { createdAt: "desc" }` on history entries, modelled as a
sort with respect to `histDescRel`. -/
def sortDescByCreatedAt (l : List HistoryEntry) : List HistoryEntry :=
  List.insertionSort histDescRel l

/-- Embeds `GET /api/tickets/[id]`: ticket lookup (404 when absent), the
`canView` gate (403), then the ticket with its status history ordered
newest first.  A pure read: the database is unchanged. -/
def ticketGet (db : DB) (session : Option User) (id : String) :
    Except ApiError (Ticket × List HistoryEntry) :=
  match session with
  | none => Except.error ⟨401, "Unauthorized"⟩
  | some user =>
    match findTicket db id with
    | none => Except.error ⟨404, "Ticket not found"⟩
    | some ticket =>
      if !canView user ticket then Except.error ⟨403, "Unauthorized"⟩
      else
        Except.ok (ticket, sortDescByCreatedAt (db.history.filter (fun h => h.ticketId == id)))

/-! ### The operation dispatcher: every state-changing request -/

/-- One incoming request to any of the state-changing handlers. -/
inductive Op where
  | status (session : Option User) (id : String) (newStatus : TicketStatus) (reason : Option String)
  | assign (session : Option User) (id : String) (req : AssignRequest)
  | approval (session : Option User) (id : String) (action : ApprovalAction) (reason : Option String)
  | patchCancel (session : Option User) (id : String) (bodyStatus : Option TicketStatus) (reason : Option String)
  | create (session : Option User) (parsed : Option CreateRequest) (newId : String) (year month : Nat)
  | sapCreate (apiKey envKey : Option String) (parsed : Option SapRequest) (newId : String) (year month : Nat)

/-- Was the HTTP response a success (2xx) or a structured error? -/
inductive StepRes where
  | success
  | failure (e : ApiError)
deriving DecidableEq, Repr

/-- Collapse a handler result to success/failure. -/
def toStepRes {α : Type} : Except ApiError α → StepRes
  | Except.ok _ => StepRes.success
  | Except.error e => StepRes.failure e

/-- Run one request against the database. -/
def step (op : Op) (db : DB) (now : Nat) : StepRes × DB :=
  match op with
  | Op.status session id newStatus reason =>
    let r := statusPost db session id newStatus reason now
    (toStepRes r.1, r.2)
  | Op.assign session id req =>
    let r := assignPost db session id req now
    (toStepRes r.1, r.2)
  | Op.approval session id action reason =>
    let r := approvalsPost db session id action reason now
    (toStepRes r.1, r.2)
  | Op.patchCancel session id bodyStatus reason =>
    let r := ticketPatch db session id bodyStatus reason now
    (toStepRes r.1, r.2)
  | Op.create session parsed newId year month =>
    let r := ticketsPost db session parsed newId year month now
    (toStepRes r.1, r.2)
  | Op.sapCreate apiKey envKey parsed newId year month =>
    let r := sapTicketsPost db apiKey envKey parsed newId year month now
    (toStepRes r.1, r.2)

/-- Freshness of the store-generated id of a creation request: the ids a
real store generates never collide with existing tickets. -/
def opFresh (op : Op) (db : DB) : Prop :=
  match op with
  | Op.create _ _ newId _ _ => findTicket db newId = none
  | Op.sapCreate _ _ _ newId _ _ => findTicket db newId = none
  | _ => True

/-- Modelled from the spec (§4.2): the spec's transition table as a
relation on `(from, to)` pairs, used only to phrase which pairs the
claims call legal.  The handlers above are the code's own scattered
checks; this definition exists to compare them against the spec's
wording. -/
def specTransitionTable : TicketStatus → TicketStatus → Bool
  | TicketStatus.FOR_PD_APPROVAL, TicketStatus.SUBMITTED => true
  | TicketStatus.FOR_PD_APPROVAL, TicketStatus.CANCELLED => true
  | TicketStatus.SUBMITTED, TicketStatus.DEV_IN_PROGRESS => true
  | TicketStatus.DEV_IN_PROGRESS, TicketStatus.QA_TESTING => true
  | TicketStatus.QA_TESTING, TicketStatus.PD_TESTING => true
  | TicketStatus.PD_TESTING, TicketStatus.FOR_DEPLOYMENT => true
  | TicketStatus.FOR_DEPLOYMENT, TicketStatus.DEPLOYED => true
  | _, _ => false

/-- The two terminal states of the lifecycle. -/
def isTerminal (s : TicketStatus) : Bool :=
  s == TicketStatus.DEPLOYED || s == TicketStatus.CANCELLED

/-- The read-read-commit-commit interleaving of two concurrent
`POST /api/approvals/[id]` requests on the same database: both handlers
run their validation phase against the same pre-state (the validation
phase performs only reads), then each completes its two writes.  Each
request's response is determined by its own validation, exactly as in
the source, where nothing after the validation phase can fail. -/
def approvalsInterleaved (db : DB) (u1 u2 : User) (id : String)
    (a1 a2 : ApprovalAction) (r1 r2 : Option String) (now1 now2 : Nat) :
    (Except ApiError Ticket × Except ApiError Ticket) × DB :=
  let v1 := approvalsValidate db u1 id a1 r1
  let v2 := approvalsValidate db u2 id a2 r2
  let db1 := match v1 with
    | Except.ok _ => approvalsAppendHistory (approvalsApplyUpdate db u1 id a1 r1 now1) u1 id a1 r1 now1
    | Except.error _ => db
  let db2 := match v2 with
    | Except.ok _ => approvalsAppendHistory (approvalsApplyUpdate db1 u2 id a2 r2 now2) u2 id a2 r2 now2
    | Except.error _ => db1
  ((v1, v2), db2)

/-- The audit discipline relating the pre- and post-state of one request:
the history is append-only; any observed status change is matched by
exactly one appended entry recording the pre- and post-states (with
`fromStatus = none` exactly for a newly created ticket); and an entry is
appended only when some ticket's observable status changed. -/
def AuditConds (db db' : DB) : Prop :=
  (∃ tail, db'.history = db.history ++ tail) ∧
  (∀ tid s₀ s₁, statusOf db tid = some s₀ → statusOf db' tid = some s₁ → s₀ ≠ s₁ →
    ∃ e, db'.history = db.history ++ [e] ∧ e.ticketId = tid ∧
      e.fromStatus = some s₀ ∧ e.toStatus = s₁) ∧
  (∀ tid s₁, statusOf db tid = none → statusOf db' tid = some s₁ →
    ∃ e, db'.history = db.history ++ [e] ∧ e.ticketId = tid ∧
      e.fromStatus = none ∧ e.toStatus = s₁) ∧
  (db'.history ≠ db.history → ∃ tid, statusOf db' tid ≠ statusOf db tid)

/-- The ticket of the C4 concurrency scenario, awaiting approval. -/
def exC4Ticket : Ticket :=
  { id := "t1", ticketNumber := "TKT-2501-0001", title := "T", description := "D"
    category := TicketCategory.BUG, priority := TicketPriority.LOW
    status := TicketStatus.FOR_PD_APPROVAL, submitterId := "alice"
    processOwnerId := none, assignedDeveloperId := none, assignedQaId := none
    contactEmail := "a@b.c", contactPhone := none, stepsToReproduce := none
    createdAt := 0, submittedAt := none, cancelledAt := none, deployedAt := none
    cancelledById := none, cancellationReason := none }

/-- The database of the C4 concurrency scenario. -/
def exC4DB : DB := ⟨[exC4Ticket], [], []⟩

/-- First concurrent approver of the C4 scenario. -/
def exC4U1 : User :=
  ⟨"ap1", some "von.mauleon@projectduo.com.ph", TicketRole.NORMAL, false, false, false⟩

/-- Second concurrent approver of the C4 scenario. -/
def exC4U2 : User :=
  ⟨"ap2", some "vida.gerado@projectduo.com.ph", TicketRole.NORMAL, false, false, false⟩

/-- The ticket used in the C6 witness. -/
def exC6Ticket : Ticket :=
  { id := "t1", ticketNumber := "TKT-2501-0001", title := "T", description := "D"
    category := TicketCategory.BUG, priority := TicketPriority.LOW
    status := TicketStatus.QA_TESTING, submitterId := "alice"
    processOwnerId := none, assignedDeveloperId := none, assignedQaId := none
    contactEmail := "a@b.c", contactPhone := none, stepsToReproduce := none
    createdAt := 0, submittedAt := none, cancelledAt := none, deployedAt := none
    cancelledById := none, cancellationReason := none }

/-- A project-manager identity unrelated to the example ticket. -/
def exC7User : User :=
  ⟨"pm9", some "pm9@example.com", TicketRole.PROJECT_MANAGER, false, false, false⟩

/-- An example ticket in which `exC7User` is neither submitter, process
owner, assigned developer nor assigned QA. -/
def exC7Ticket : Ticket :=
  { id := "t1", ticketNumber := "TKT-2501-0001", title := "T", description := "D"
    category := TicketCategory.BUG, priority := TicketPriority.LOW
    status := TicketStatus.SUBMITTED, submitterId := "alice"
    processOwnerId := none, assignedDeveloperId := none, assignedQaId := none
    contactEmail := "a@b.c", contactPhone := none, stepsToReproduce := none
    createdAt := 0, submittedAt := none, cancelledAt := none, deployedAt := none
    cancelledById := none, cancellationReason := none }

/-- The project manager of the C2 failing input. -/
def exC2PM : User := ⟨"pm1", some "pm@x.com", TicketRole.PROJECT_MANAGER, false, false, false⟩

/-- The C2 failing input: a `SUBMITTED` ticket with no assigned
developer. -/
def exC2Ticket : Ticket :=
  { id := "t1", ticketNumber := "TKT-2501-0001", title := "T", description := "D"
    category := TicketCategory.BUG, priority := TicketPriority.LOW
    status := TicketStatus.SUBMITTED, submitterId := "alice"
    processOwnerId := none, assignedDeveloperId := none, assignedQaId := none
    contactEmail := "a@b.c", contactPhone := none, stepsToReproduce := none
    createdAt := 0, submittedAt := none, cancelledAt := none, deployedAt := none
    cancelledById := none, cancellationReason := none }

/-- The database of the C2 failing input. -/
def exC2DB : DB := ⟨[exC2Ticket], [], []⟩

/-- The ticket of the C9 witness database. -/
def exC9Ticket : Ticket :=
  { id := "t1", ticketNumber := "TKT-2501-0001", title := "T", description := "D"
    category := TicketCategory.BUG, priority := TicketPriority.LOW
    status := TicketStatus.SUBMITTED, submitterId := "alice"
    processOwnerId := none, assignedDeveloperId := none, assignedQaId := none
    contactEmail := "a@b.c", contactPhone := none, stepsToReproduce := none
    createdAt := 0, submittedAt := none, cancelledAt := none, deployedAt := none
    cancelledById := none, cancellationReason := none }

/-- The C9 witness database: one ticket and two history entries. -/
def exC9DB : DB :=
  ⟨[exC9Ticket], [],
    [ ⟨"t1", none, TicketStatus.FOR_PD_APPROVAL, "alice", "Ticket created", 1⟩
    , ⟨"t1", some TicketStatus.FOR_PD_APPROVAL, TicketStatus.SUBMITTED, "ap1", "Approved", 2⟩ ]⟩

/-- The project manager of the C1 counterexample. -/
def exC1PM : User := ⟨"pm2", some "pm2@x.com", TicketRole.PROJECT_MANAGER, false, false, false⟩

/-- The `QA_TESTING` ticket of the C1 counterexample. -/
def exC1Ticket : Ticket :=
  { id := "t1", ticketNumber := "TKT-2501-0001", title := "T", description := "D"
    category := TicketCategory.BUG, priority := TicketPriority.LOW
    status := TicketStatus.QA_TESTING, submitterId := "alice"
    processOwnerId := none, assignedDeveloperId := none, assignedQaId := none
    contactEmail := "a@b.c", contactPhone := none, stepsToReproduce := none
    createdAt := 0, submittedAt := none, cancelledAt := none, deployedAt := none
    cancelledById := none, cancellationReason := none }

/-- The database of the C1 counterexample. -/
def exC1DB : DB := ⟨[exC1Ticket], [], []⟩

/-- The identity of the C1 witness: an approver-listed project manager
who also submitted the deployed ticket. -/
def exC1WUser : User :=
  ⟨"alice", some "von.mauleon@projectduo.com.ph", TicketRole.PROJECT_MANAGER,
    false, false, false⟩

/-- The deployed (terminal) ticket of the C1 witness. -/
def exC1WTicketD : Ticket :=
  { id := "t1", ticketNumber := "TKT-2501-0001", title := "T", description := "D"
    category := TicketCategory.BUG, priority := TicketPriority.LOW
    status := TicketStatus.DEPLOYED, submitterId := "alice"
    processOwnerId := none, assignedDeveloperId := none, assignedQaId := none
    contactEmail := "a@b.c", contactPhone := none, stepsToReproduce := none
    createdAt := 0, submittedAt := none, cancelledAt := none, deployedAt := some 2
    cancelledById := none, cancellationReason := none }

/-- The `QA_TESTING` ticket of the C1 witness. -/
def exC1WTicketQ : Ticket :=
  { id := "t2", ticketNumber := "TKT-2501-0002", title := "T", description := "D"
    category := TicketCategory.BUG, priority := TicketPriority.LOW
    status := TicketStatus.QA_TESTING, submitterId := "bob"
    processOwnerId := none, assignedDeveloperId := none, assignedQaId := none
    contactEmail := "a@b.c", contactPhone := none, stepsToReproduce := none
    createdAt := 0, submittedAt := none, cancelledAt := none, deployedAt := none
    cancelledById := none, cancellationReason := none }

/-- The database of the C1 witness. -/
def exC1WDB : DB := ⟨[exC1WTicketD, exC1WTicketQ], [], []⟩

/-- The operation of the C3 witness: an allow-listed creator makes a
ticket on the empty database. -/
def exC3Op : Op :=
  Op.create (some ⟨"u7", some "torie.gequillana@projectduo.com.ph",
      TicketRole.NORMAL, false, false, false⟩)
    (some ⟨"A sufficiently long title", "A description longer than twenty characters",
      TicketCategory.BUG, TicketPriority.HIGH, none, "torie@x.com", none⟩)
    "n1" 2025 10

/-! ## Lemmas about the repository operations -/

theorem char_eq_of_toNat_eq {a b : Char} (h : a.toNat = b.toNat) : a = b :=
  Char.ext (UInt32.ext h)

theorem findTicket_appendHistory (db : DB) (e : HistoryEntry) (id : String) :
    findTicket (appendHistory db e) id = findTicket db id := rfl

theorem statusOf_appendHistory (db : DB) (e : HistoryEntry) (id : String) :
    statusOf (appendHistory db e) id = statusOf db id := rfl

theorem history_updateTicket (db : DB) (id : String) (f : Ticket → Ticket) :
    (updateTicket db id f).history = db.history := rfl

theorem history_appendHistory (db : DB) (e : HistoryEntry) :
    (appendHistory db e).history = db.history ++ [e] := rfl

theorem find?_map_update (l : List Ticket) (id : String) (f : Ticket → Ticket)
    (hf : ∀ u, (f u).id = u.id) :
    (l.map (fun t => if t.id == id then f t else t)).find? (fun t => t.id == id)
      = (l.find? (fun t => t.id == id)).map f := by
  induction l with
  | nil => rfl
  | cons t l ih =>
    simp only [List.map_cons]
    by_cases h : t.id = id
    · have h1 : ((f t).id == id) = true := by rw [hf]; simp [h]
      have h2 : (t.id == id) = true := by simp [h]
      have hgt : (if t.id == id then f t else t) = f t := by simp [h]
      rw [hgt]
      simp only [List.find?_cons, h1, h2]
      rfl
    · have h2 : (t.id == id) = false := by simp [h]
      have hgt : (if t.id == id then f t else t) = t := by simp [h]
      rw [hgt]
      simp only [List.find?_cons, h2]
      exact ih

theorem findTicket_updateTicket_self (db : DB) (id : String) (f : Ticket → Ticket)
    (hf : ∀ u, (f u).id = u.id) :
    findTicket (updateTicket db id f) id = (findTicket db id).map f := by
  simpa [findTicket, updateTicket] using find?_map_update db.tickets id f hf

theorem findTicket_updateTicket_ne (db : DB) (id tid : String) (f : Ticket → Ticket)
    (hf : ∀ u, (f u).id = u.id) (hne : tid ≠ id) :
    findTicket (updateTicket db id f) tid = findTicket db tid := by
  simp only [findTicket, updateTicket]
  induction db.tickets with
  | nil => rfl
  | cons t l ih =>
    simp only [List.map_cons]
    by_cases h : t.id = id
    · have h2 : ((f t).id == tid) = false := by
        rw [hf, h]; simp; exact fun hc => hne hc.symm
      have h3 : (t.id == tid) = false := by
        rw [h]; simp; exact fun hc => hne hc.symm
      have hgt : (if t.id == id then f t else t) = f t := by simp [h]
      rw [hgt]
      simp only [List.find?_cons, h2, h3]
      exact ih
    · have hgt : (if t.id == id then f t else t) = t := by simp [h]
      rw [hgt]
      by_cases h3 : t.id = tid
      · have hp : (t.id == tid) = true := by simp [h3]
        simp only [List.find?_cons, hp]
      · have hp : (t.id == tid) = false := by simp [h3]
        simp only [List.find?_cons, hp]
        exact ih

theorem statusOf_updateTicket_self (db : DB) (id : String) (f : Ticket → Ticket)
    (hf : ∀ u, (f u).id = u.id) :
    statusOf (updateTicket db id f) id = (findTicket db id).map (fun t => (f t).status) := by
  rw [statusOf, findTicket_updateTicket_self db id f hf, Option.map_map]
  rfl

theorem statusOf_updateTicket_ne (db : DB) (id tid : String) (f : Ticket → Ticket)
    (hf : ∀ u, (f u).id = u.id) (hne : tid ≠ id) :
    statusOf (updateTicket db id f) tid = statusOf db tid := by
  simp [statusOf, findTicket_updateTicket_ne db id tid f hf hne]

theorem findTicket_appendTicket (db : DB) (x : Ticket) (tid : String) :
    findTicket { db with tickets := db.tickets ++ [x] } tid
      = (findTicket db tid).or (if x.id == tid then some x else none) := by
  simp only [findTicket, List.find?_append]
  congr 1
  by_cases hx : x.id = tid <;> simp [List.find?_cons, hx]

theorem statusOf_update_pure (db : DB) (id : String) (f : Ticket → Ticket)
    (hfid : ∀ u, (f u).id = u.id) (hfst : ∀ u, (f u).status = u.status) (tid : String) :
    statusOf (updateTicket db id f) tid = statusOf db tid := by
  by_cases htid : tid = id
  · subst htid
    rw [statusOf_updateTicket_self db tid f hfid, statusOf]
    cases findTicket db tid <;> simp [hfst]
  · exact statusOf_updateTicket_ne db id tid f hfid htid

theorem statusOf_append_keep (db : DB) (x : Ticket) (e : HistoryEntry) (tid : String)
    (t : Ticket) (hf : findTicket db tid = some t) :
    statusOf (appendHistory { db with tickets := db.tickets ++ [x] } e) tid
      = statusOf db tid := by
  rw [statusOf_appendHistory, statusOf, findTicket_appendTicket, hf, statusOf, hf]
  rfl

theorem auditConds_refl (db : DB) : AuditConds db db := by
  refine ⟨⟨[], by simp⟩, ?_, ?_, ?_⟩
  · intro tid s₀ s₁ h0 h1 hne
    rw [h0] at h1
    exact absurd (Option.some.inj h1) hne
  · intro tid s₁ h0 h1
    rw [h0] at h1
    exact Option.noConfusion h1
  · intro h
    exact absurd rfl h

theorem auditConds_update_mutate (db : DB) (id : String) (f : Ticket → Ticket)
    (e : HistoryEntry) (t : Ticket)
    (hfind : findTicket db id = some t)
    (hfid : ∀ u, (f u).id = u.id)
    (hfst : ∀ u, (f u).status = e.toStatus)
    (heid : e.ticketId = id)
    (hefrom : e.fromStatus = some t.status)
    (hne : t.status ≠ e.toStatus) :
    AuditConds db (appendHistory (updateTicket db id f) e) := by
  have hhist : (appendHistory (updateTicket db id f) e).history = db.history ++ [e] := rfl
  have hself : statusOf (appendHistory (updateTicket db id f) e) id = some e.toStatus := by
    rw [statusOf_appendHistory, statusOf_updateTicket_self db id f hfid, hfind]
    simp [hfst]
  have hother : ∀ tid, tid ≠ id →
      statusOf (appendHistory (updateTicket db id f) e) tid = statusOf db tid := by
    intro tid hne'
    rw [statusOf_appendHistory, statusOf_updateTicket_ne db id tid f hfid hne']
  refine ⟨⟨[e], hhist⟩, ?_, ?_, ?_⟩
  · intro tid s₀ s₁ h0 h1 hne01
    by_cases htid : tid = id
    · subst htid
      have hs0 : t.status = s₀ := by
        rw [statusOf, hfind] at h0
        exact Option.some.inj h0
      have hs1 : e.toStatus = s₁ := by
        rw [hself] at h1
        exact Option.some.inj h1
      exact ⟨e, hhist, heid, by rw [hefrom, hs0], hs1⟩
    · rw [hother tid htid, h0] at h1
      exact absurd (Option.some.inj h1) hne01
  · intro tid s₁ h0 h1
    by_cases htid : tid = id
    · subst htid
      rw [statusOf, hfind] at h0
      exact Option.noConfusion h0
    · rw [hother tid htid, h0] at h1
      exact Option.noConfusion h1
  · intro _
    refine ⟨id, ?_⟩
    rw [hself, statusOf, hfind]
    simp
    exact fun hc => hne hc.symm

theorem auditConds_update_pure (db : DB) (id : String) (f : Ticket → Ticket)
    (hfid : ∀ u, (f u).id = u.id) (hfst : ∀ u, (f u).status = u.status) :
    AuditConds db (updateTicket db id f) := by
  refine ⟨⟨[], by simp [history_updateTicket]⟩, ?_, ?_, ?_⟩
  · intro tid s₀ s₁ h0 h1 hne
    rw [statusOf_update_pure db id f hfid hfst, h0] at h1
    exact absurd (Option.some.inj h1) hne
  · intro tid s₁ h0 h1
    rw [statusOf_update_pure db id f hfid hfst, h0] at h1
    exact Option.noConfusion h1
  · intro h
    exact absurd (history_updateTicket db id f) h

theorem auditConds_create (db : DB) (x : Ticket) (e : HistoryEntry)
    (hfresh : findTicket db x.id = none)
    (heid : e.ticketId = x.id) (hefrom : e.fromStatus = none)
    (hest : e.toStatus = x.status) :
    AuditConds db (appendHistory { db with tickets := db.tickets ++ [x] } e) := by
  have hhist : (appendHistory { db with tickets := db.tickets ++ [x] } e).history
      = db.history ++ [e] := rfl
  have hnew : statusOf (appendHistory { db with tickets := db.tickets ++ [x] } e) x.id
      = some x.status := by
    rw [statusOf_appendHistory, statusOf, findTicket_appendTicket, hfresh]
    simp
  have hnone : ∀ tid, tid ≠ x.id → findTicket db tid = none →
      statusOf (appendHistory { db with tickets := db.tickets ++ [x] } e) tid = none := by
    intro tid hne hf
    have hb : (x.id == tid) = false := by
      simp
      exact fun hc => hne hc.symm
    rw [statusOf_appendHistory, statusOf, findTicket_appendTicket, hf, hb]
    rfl
  refine ⟨⟨[e], hhist⟩, ?_, ?_, ?_⟩
  · intro tid s₀ s₁ h0 h1 hne01
    have hf : ∃ t, findTicket db tid = some t := by
      rw [statusOf] at h0
      cases hft : findTicket db tid with
      | none => rw [hft] at h0; exact Option.noConfusion h0
      | some t => exact ⟨t, rfl⟩
    obtain ⟨t, hft⟩ := hf
    rw [statusOf_append_keep db x e tid t hft, h0] at h1
    exact absurd (Option.some.inj h1) hne01
  · intro tid s₁ h0 h1
    have hft : findTicket db tid = none := by
      rw [statusOf] at h0
      cases hft : findTicket db tid with
      | none => rfl
      | some t => rw [hft] at h0; exact Option.noConfusion h0
    by_cases htid : tid = x.id
    · subst htid
      have hs1 : x.status = s₁ := by
        rw [hnew] at h1
        exact Option.some.inj h1
      exact ⟨e, hhist, heid, hefrom, by rw [hest, hs1]⟩
    · rw [hnone tid htid hft] at h1
      exact Option.noConfusion h1
  · intro _
    refine ⟨x.id, ?_⟩
    rw [hnew, statusOf, hfresh]
    simp

theorem validateStatusTransition_ok_pairs {c n : TicketStatus} {u : User} {t : Ticket}
    {v : Unit} (h : validateStatusTransition c n u t = Except.ok v) :
    (c = TicketStatus.DEV_IN_PROGRESS ∧ n = TicketStatus.QA_TESTING) ∨
    (c = TicketStatus.QA_TESTING ∧ n = TicketStatus.PD_TESTING) ∨
    (c = TicketStatus.PD_TESTING ∧ n = TicketStatus.FOR_DEPLOYMENT) ∨
    (c = TicketStatus.FOR_DEPLOYMENT ∧ n = TicketStatus.DEPLOYED) := by
  unfold validateStatusTransition at h
  split at h
  · rename_i hc; exact Or.inl hc
  · split at h
    · rename_i hc; exact Or.inr (Or.inl hc)
    · split at h
      · rename_i hc; exact Or.inr (Or.inr (Or.inl hc))
      · split at h
        · rename_i hc; exact Or.inr (Or.inr (Or.inr hc))
        · exact absurd h (by simp)

theorem validateStatusTransition_ok_ne {c n : TicketStatus} {u : User} {t : Ticket}
    {v : Unit} (h : validateStatusTransition c n u t = Except.ok v) : c ≠ n := by
  rcases validateStatusTransition_ok_pairs h with ⟨h1, h2⟩ | ⟨h1, h2⟩ | ⟨h1, h2⟩ | ⟨h1, h2⟩ <;>
    (subst h1; subst h2; decide)

theorem validateStatusTransition_ok_nonterminal {c n : TicketStatus} {u : User} {t : Ticket}
    {v : Unit} (h : validateStatusTransition c n u t = Except.ok v) : isTerminal c = false := by
  rcases validateStatusTransition_ok_pairs h with ⟨h1, _⟩ | ⟨h1, _⟩ | ⟨h1, _⟩ | ⟨h1, _⟩ <;>
    (subst h1; decide)

theorem approvalsValidate_ok {db : DB} {user : User} {id : String}
    {action : ApprovalAction} {reason : Option String} {tk : Ticket}
    (h : approvalsValidate db user id action reason = Except.ok tk) :
    findTicket db id = some tk ∧ tk.status = TicketStatus.FOR_PD_APPROVAL := by
  unfold approvalsValidate at h
  split at h
  · exact absurd h (by simp)
  · split at h
    · exact absurd h (by simp)
    · rename_i ticket hticket
      split at h
      · exact absurd h (by simp)
      · rename_i hst
        have hst' : ticket.status = TicketStatus.FOR_PD_APPROVAL := by
          by_contra hc
          exact hst hc
        split at h
        · cases h
          exact ⟨hticket, hst'⟩
        · split at h
          · exact absurd h (by simp)
          · cases h
            exact ⟨hticket, hst'⟩

/-! ## Claim C5: non-approvers cannot move a ticket out of approval -/

/-- C5: for every actor whose email is not on the approver allow-list (in
the code's sense: lower-cased membership in `TICKET_APPROVERS`), any
`POST /api/approvals/[id]` request returns the Forbidden refusal and the
database — ticket fields and history alike — is unchanged.  The approver
gate runs before the ticket is even loaded, so this holds for every
ticket and in particular for every ticket in `FOR_PD_APPROVAL` asked to
move to `SUBMITTED`. -/
theorem C5_nonapprover_forbidden (db : DB) (user : User) (id : String)
    (action : ApprovalAction) (reason : Option String) (now : Nat)
    (h : isTicketApprover user.email = false) :
    approvalsPost db (some user) id action reason now
      = (Except.error ⟨403, approveDenialMsg⟩, db) := by
  simp [approvalsPost, approvalsValidate, h]

/-- C5 witness: a concrete non-approver is refused with 403 and the
(empty) database is untouched. -/
theorem C5_witness :
    isTicketApprover (some "mallory@example.com") = false ∧
    approvalsPost ⟨[], [], []⟩
        (some ⟨"u9", some "mallory@example.com", TicketRole.NORMAL, false, false, false⟩)
        "t1" ApprovalAction.approve none 0
      = (Except.error ⟨403, approveDenialMsg⟩, ⟨[], [], []⟩) :=
  ⟨by decide, C5_nonapprover_forbidden _ _ _ _ _ _ (by decide)⟩

/-! ## Claim C6: submitter cancellation -/

/-- C6: a `PATCH /api/tickets/[id]` cancellation succeeds exactly when
the actor is the ticket's submitter and the ticket is in
`FOR_PD_APPROVAL`; a non-submitter is refused with Forbidden (403), and
the submitter in any other state is refused as an invalid transition
(400), with the database unchanged in both failure cases. -/
theorem C6_cancel_iff (db : DB) (user : User) (id : String)
    (bodyReason : Option String) (now : Nat) (t : Ticket)
    (hfind : findTicket db id = some t) :
    ((ticketPatch db (some user) id (some TicketStatus.CANCELLED) bodyReason now).1.isOk = true
        ↔ (t.submitterId = user.id ∧ t.status = TicketStatus.FOR_PD_APPROVAL)) ∧
    (t.submitterId ≠ user.id →
      ticketPatch db (some user) id (some TicketStatus.CANCELLED) bodyReason now
        = (Except.error ⟨403, "Only the ticket submitter can cancel"⟩, db)) ∧
    (t.submitterId = user.id → t.status ≠ TicketStatus.FOR_PD_APPROVAL →
      ticketPatch db (some user) id (some TicketStatus.CANCELLED) bodyReason now
        = (Except.error ⟨400, "Can only cancel tickets awaiting approval"⟩, db)) := by
  refine ⟨?_, ?_, ?_⟩
  · by_cases hsub : t.submitterId = user.id
    · by_cases hst : t.status = TicketStatus.FOR_PD_APPROVAL
      · simp [ticketPatch, hfind, hsub, hst, Except.isOk, Except.toBool]
      · simp [ticketPatch, hfind, hsub, hst, Except.isOk, Except.toBool]
    · simp [ticketPatch, hfind, hsub, Except.isOk, Except.toBool]
  · intro hsub
    simp [ticketPatch, hfind, hsub]
  · intro hsub hst
    simp [ticketPatch, hfind, hsub, hst]

/-- C6 witness: the submitter attempting to cancel the concrete
`QA_TESTING` ticket gets the invalid-transition refusal (Scenario D). -/
theorem C6_witness :
    ((ticketPatch ⟨[exC6Ticket], [], []⟩
        (some ⟨"alice", none, TicketRole.NORMAL, false, false, false⟩)
        "t1" (some TicketStatus.CANCELLED) none 7).1.isOk = true
      ↔ (exC6Ticket.submitterId = "alice" ∧ exC6Ticket.status = TicketStatus.FOR_PD_APPROVAL)) ∧
    (exC6Ticket.submitterId ≠ "alice" →
      ticketPatch ⟨[exC6Ticket], [], []⟩
          (some ⟨"alice", none, TicketRole.NORMAL, false, false, false⟩)
          "t1" (some TicketStatus.CANCELLED) none 7
        = (Except.error ⟨403, "Only the ticket submitter can cancel"⟩, ⟨[exC6Ticket], [], []⟩)) ∧
    (exC6Ticket.submitterId = "alice" → exC6Ticket.status ≠ TicketStatus.FOR_PD_APPROVAL →
      ticketPatch ⟨[exC6Ticket], [], []⟩
          (some ⟨"alice", none, TicketRole.NORMAL, false, false, false⟩)
          "t1" (some TicketStatus.CANCELLED) none 7
        = (Except.error ⟨400, "Can only cancel tickets awaiting approval"⟩, ⟨[exC6Ticket], [], []⟩)) :=
  C6_cancel_iff _ _ _ _ _ _ (by decide)

/-! ## Claim C7: commenting permission versus viewing permission -/

/-- C7 counterexample: `canComment` is NOT the same predicate as
`canView` — an otherwise-unrelated holder of the project-manager role may
view the ticket but may not comment on it. -/
theorem C7_counterexample :
    canComment exC7User exC7Ticket ≠ canView exC7User exC7Ticket := by decide

/-- C7 (amended): `canView` is exactly `canComment` extended by the
project-manager-role disjunct; equivalently, commenting is strictly
narrower than viewing, the difference being precisely the manager role.
`canComment` itself holds exactly for the submitter, process owner,
assigned developer, assigned QA, or a holder of an elevated
organizational flag. -/
theorem C7_view_comment_relation (u : User) (t : Ticket) :
    canView u t = (canComment u t || (u.ticketRole == TicketRole.PROJECT_MANAGER)) := by
  simp [canView, canComment, Bool.or_assoc]

/-! ## Claim C2: the missing developer-assignment precondition -/

/-- C2 evaluated at the failing input: the assign handler, asked by a
project manager to start development on a `SUBMITTED` ticket whose
`assignedDeveloperId` is null, succeeds and moves the ticket to
`DEV_IN_PROGRESS` with the developer still unassigned — no
`PreconditionFailed` refusal exists on this path, although the client UI
disables the start-development action until a developer is selected. -/
theorem C2_no_precondition_check :
    (findTicket exC2DB "t1").map (fun t => (t.status, t.assignedDeveloperId))
        = some (TicketStatus.SUBMITTED, none) ∧
    (assignPost exC2DB (some exC2PM) "t1" ⟨none, none, some true⟩ 5).1
        = Except.ok ("t1", TicketStatus.DEV_IN_PROGRESS) ∧
    statusOf (assignPost exC2DB (some exC2PM) "t1" ⟨none, none, some true⟩ 5).2 "t1"
        = some TicketStatus.DEV_IN_PROGRESS ∧
    (findTicket (assignPost exC2DB (some exC2PM) "t1" ⟨none, none, some true⟩ 5).2 "t1").map
        (fun t => t.assignedDeveloperId) = some none :=
  ⟨rfl, rfl, rfl, rfl⟩

/-! ## Claim C9: the history view -/

/-- C9 counterexample: querying the history of a ticket that does not
exist yields the NotFound error response, not an empty sequence. -/
theorem C9_counterexample :
    ticketGet ⟨[], [], []⟩ (some ⟨"u1", none, TicketRole.NORMAL, false, false, false⟩) "t0"
      = Except.error ⟨404, "Ticket not found"⟩ := by rfl

/-- C9 (amended): the history view returns the ticket's audit entries
ordered newest-first (descending `createdAt`, a permutation of exactly
the ticket's entries), but a missing ticket is a NotFound error — an
empty sequence is never substituted. -/
theorem C9_history_view (db : DB) (u : User) (idAbsent idPresent : String) (t : Ticket)
    (hA : findTicket db idAbsent = none)
    (hP : findTicket db idPresent = some t)
    (hview : canView u t = true) :
    ticketGet db (some u) idAbsent = Except.error ⟨404, "Ticket not found"⟩ ∧
    ∃ l, ticketGet db (some u) idPresent = Except.ok (t, l) ∧
      List.Sorted histDescRel l ∧
      l.Perm (db.history.filter (fun h => h.ticketId == idPresent)) := by
  constructor
  · simp [ticketGet, hA]
  · refine ⟨sortDescByCreatedAt (db.history.filter (fun h => h.ticketId == idPresent)), ?_, ?_, ?_⟩
    · simp [ticketGet, hP, hview]
    · exact List.sorted_insertionSort _ _
    · exact List.perm_insertionSort _ _

/-- C9 witness: the amended statement at a concrete database holding one
ticket, one present id and one absent id. -/
theorem C9_witness :
    ticketGet exC9DB (some ⟨"alice", none, TicketRole.NORMAL, false, false, false⟩) "t0"
      = Except.error ⟨404, "Ticket not found"⟩ ∧
    ∃ l, ticketGet exC9DB (some ⟨"alice", none, TicketRole.NORMAL, false, false, false⟩) "t1"
        = Except.ok (exC9Ticket, l) ∧
      List.Sorted histDescRel l ∧
      l.Perm (exC9DB.history.filter (fun h => h.ticketId == "t1")) :=
  C9_history_view _ _ _ _ _ (by decide) (by decide) (by decide)

/-! ## Claim C10: the integration-bypass authentication fails closed -/

/-- C10: when the server-side `SAP_API_KEY` is unconfigured, every
request — whatever key it carries — fails `validateApiKey`, receives 401
from the SAP creation endpoint, and the database (tickets, history) is
unchanged; and whenever `validateApiKey` accepts, both the header and
the configured key were present, non-empty and equal as exact strings. -/
theorem C10_fail_closed (db : DB) (parsed : Option SapRequest) (newId : String)
    (year month now : Nat) (hdr env hdr2 env2 : Option String)
    (henv : env = none) (h2 : validateApiKey hdr2 env2 = true) :
    validateApiKey hdr env = false ∧
    sapTicketsPost db hdr env parsed newId year month now
      = (Except.error ⟨401, "Unauthorized - Invalid or missing API key"⟩, db) ∧
    ∃ k, hdr2 = some k ∧ env2 = some k ∧ k ≠ "" := by
  subst henv
  have hv : validateApiKey hdr none = false := by
    simp [validateApiKey, jsFalsy]
  refine ⟨hv, by simp [sapTicketsPost, hv], ?_⟩
  cases hdr2 with
  | none => simp [validateApiKey, jsFalsy] at h2
  | some a =>
    cases env2 with
    | none => simp [validateApiKey, jsFalsy] at h2
    | some b =>
      by_cases ha : a = ""
      · simp [validateApiKey, jsFalsy, ha] at h2
      · by_cases hb : b = ""
        · simp [validateApiKey, jsFalsy, hb] at h2
        · have hab : a = b := by
            simp [validateApiKey, jsFalsy, ha, hb] at h2
            exact h2
          exact ⟨a, rfl, by rw [hab], ha⟩

/-- C10 witness: a concrete request against an unconfigured server key
is rejected with 401 and no ticket or history entry is created, while a
matching non-empty pair is accepted. -/
theorem C10_witness :
    validateApiKey (some "whatever") none = false ∧
    sapTicketsPost ⟨[], [], []⟩ (some "whatever") none none "n1" 2025 10 0
      = (Except.error ⟨401, "Unauthorized - Invalid or missing API key"⟩, ⟨[], [], []⟩) ∧
    ∃ k, (some "secret" : Option String) = some k ∧ (some "secret" : Option String) = some k ∧ k ≠ "" :=
  C10_fail_closed _ _ _ _ _ _ _ _ (some "secret") (some "secret") rfl (by decide)

theorem statusOf_mutate_frozen (db : DB) (id : String) (f : Ticket → Ticket)
    (e : HistoryEntry) (t : Ticket) (hfind : findTicket db id = some t)
    (hfid : ∀ u, (f u).id = u.id) (hterm : isTerminal t.status = false)
    (tid : String) (s : TicketStatus)
    (h0 : statusOf db tid = some s) (hs : isTerminal s = true) :
    statusOf (appendHistory (updateTicket db id f) e) tid = some s := by
  by_cases htid : tid = id
  · subst htid
    rw [statusOf, hfind] at h0
    have hts : t.status = s := Option.some.inj h0
    rw [hts, hs] at hterm
    exact Bool.noConfusion hterm
  · rw [statusOf_appendHistory, statusOf_updateTicket_ne db id tid f hfid htid]
    exact h0

theorem statusOf_some_find {db : DB} {tid : String} {s : TicketStatus}
    (h0 : statusOf db tid = some s) : ∃ t, findTicket db tid = some t ∧ t.status = s := by
  rw [statusOf] at h0
  cases hft : findTicket db tid with
  | none => rw [hft] at h0; exact Option.noConfusion h0
  | some t =>
    rw [hft] at h0
    exact ⟨t, rfl, Option.some.inj h0⟩

/-- Terminal states are absorbing under every request of the system. -/
theorem step_preserves_terminal (op : Op) (db : DB) (now : Nat) (tid : String)
    (s : TicketStatus) (h0 : statusOf db tid = some s) (hterm : isTerminal s = true) :
    statusOf (step op db now).2 tid = some s := by
  cases op with
  | status session id newStatus reason =>
    cases session with
    | none => exact h0
    | some user =>
      simp only [step, statusPost]
      split
      · exact h0
      · split
        · exact h0
        · rename_i ticket hticket
          split
          · exact h0
          · rename_i v hval
            refine statusOf_mutate_frozen db id _ _ ticket hticket ?_ ?_ tid s h0 hterm
            · intro u; rfl
            · exact validateStatusTransition_ok_nonterminal hval
  | assign session id req =>
    cases session with
    | none => exact h0
    | some user =>
      simp only [step, assignPost]
      split
      · exact h0
      · split
        · exact h0
        · rename_i ticket hticket
          split
          · exact h0
          · split
            · exact h0
            · rename_i devUpd hdev
              split
              · exact h0
              · rename_i qaUpd hqa
                by_cases hsd : req.startDevelopment.getD false ∧
                    ticket.status = TicketStatus.SUBMITTED
                · simp only [if_pos hsd]
                  refine statusOf_mutate_frozen db id _ _ ticket hticket ?_ ?_ tid s h0 hterm
                  · intro u; rfl
                  · rw [hsd.2]; decide
                · simp only [if_neg hsd]
                  rw [statusOf_update_pure db id]
                  · exact h0
                  · intro u; rfl
                  · intro u; rfl
  | approval session id action reason =>
    cases session with
    | none => exact h0
    | some user =>
      simp only [step, approvalsPost]
      split
      · exact h0
      · rename_i tk hvalid
        obtain ⟨hfind, hst⟩ := approvalsValidate_ok hvalid
        cases action with
        | approve =>
          refine statusOf_mutate_frozen db id _ _ tk hfind ?_ ?_ tid s h0 hterm
          · intro u; rfl
          · rw [hst]; decide
        | reject =>
          refine statusOf_mutate_frozen db id _ _ tk hfind ?_ ?_ tid s h0 hterm
          · intro u; rfl
          · rw [hst]; decide
  | patchCancel session id bodyStatus reason =>
    cases session with
    | none => exact h0
    | some user =>
      simp only [step, ticketPatch]
      split
      · exact h0
      · rename_i ticket hticket
        split
        · split
          · exact h0
          · split
            · exact h0
            · rename_i hsub hst
              have hst' : ticket.status = TicketStatus.FOR_PD_APPROVAL := not_not.mp hst
              refine statusOf_mutate_frozen db id _ _ ticket hticket ?_ ?_ tid s h0 hterm
              · intro u; rfl
              · rw [hst']; decide
        · exact h0
  | create session parsed newId year month =>
    cases session with
    | none => exact h0
    | some user =>
      simp only [step, ticketsPost]
      split
      · exact h0
      · split
        · exact h0
        · obtain ⟨t, hft, -⟩ := statusOf_some_find h0
          rw [statusOf_append_keep db _ _ tid t hft]
          exact h0
  | sapCreate apiKey envKey parsed newId year month =>
    simp only [step, sapTicketsPost]
    split
    · exact h0
    · split
      · exact h0
      · split
        · exact h0
        · obtain ⟨t, hft, -⟩ := statusOf_some_find h0
          rw [statusOf_append_keep db _ _ tid t hft]
          exact h0

theorem specTable_false_cases {c n : TicketStatus}
    (h : specTransitionTable c n = false) :
    ¬(c = TicketStatus.DEV_IN_PROGRESS ∧ n = TicketStatus.QA_TESTING) ∧
    ¬(c = TicketStatus.QA_TESTING ∧ n = TicketStatus.PD_TESTING) ∧
    ¬(c = TicketStatus.PD_TESTING ∧ n = TicketStatus.FOR_DEPLOYMENT) ∧
    ¬(c = TicketStatus.FOR_DEPLOYMENT ∧ n = TicketStatus.DEPLOYED) := by
  refine ⟨?_, ?_, ?_, ?_⟩ <;>
    (rintro ⟨h1, h2⟩; subst h1; subst h2; exact Bool.noConfusion h)

/-! ## Lemmas about decimal rendering and lexicographic comparison -/

theorem digitChar_toNat : ∀ d < 10, (digitChar d).toNat = 48 + d := by decide

theorem isDigitChar_digitChar : ∀ d < 10, isDigitChar (digitChar d) = true := by decide

theorem natCharsAux_congr (n : Nat) : ∀ fuel fuel', n ≤ fuel → n ≤ fuel' →
    natCharsAux fuel n = natCharsAux fuel' n := by
  induction n using Nat.strong_induction_on with
  | _ n ih =>
    intro fuel fuel' h1 h2
    match fuel, fuel' with
    | 0, 0 => rfl
    | 0, f'+1 =>
      have hn : n = 0 := Nat.le_zero.mp h1
      subst hn
      simp [natCharsAux]
    | f+1, 0 =>
      have hn : n = 0 := Nat.le_zero.mp h2
      subst hn
      simp [natCharsAux]
    | f+1, f'+1 =>
      by_cases hlt : n < 10
      · simp [natCharsAux, hlt]
      · have hdiv : n / 10 < n := Nat.div_lt_self (by omega) (by omega)
        simp only [natCharsAux, if_neg hlt]
        rw [ih (n / 10) hdiv f f' (by omega) (by omega)]

theorem natChars_lt10 {n : Nat} (h : n < 10) : natChars n = [digitChar n] := by
  cases n with
  | zero => simp [natChars, natCharsAux]
  | succ k => simp [natChars, natCharsAux, h]

theorem natChars_ge10 {n : Nat} (h : 10 ≤ n) :
    natChars n = natChars (n / 10) ++ [digitChar (n % 10)] := by
  cases n with
  | zero => omega
  | succ k =>
    have hk : ¬ (k + 1 < 10) := by omega
    simp only [natChars, natCharsAux, if_neg hk]
    have hdiv1 : (k + 1) / 10 ≤ k := by omega
    rw [natCharsAux_congr ((k + 1) / 10) k ((k + 1) / 10) hdiv1 (Nat.le_refl _)]

theorem natChars_ne_nil (n : Nat) : natChars n ≠ [] := by
  by_cases h : n < 10
  · rw [natChars_lt10 h]; simp
  · rw [natChars_ge10 (by omega)]; simp

theorem natChars_digits (n : Nat) : ∀ c ∈ natChars n, isDigitChar c = true := by
  induction n using Nat.strong_induction_on with
  | _ n ih =>
    intro c hc
    by_cases h : n < 10
    · rw [natChars_lt10 h] at hc
      simp at hc
      subst hc
      exact isDigitChar_digitChar n h
    · rw [natChars_ge10 (by omega)] at hc
      rw [List.mem_append] at hc
      cases hc with
      | inl hc => exact ih (n / 10) (Nat.div_lt_self (by omega) (by omega)) c hc
      | inr hc =>
        simp at hc
        subst hc
        exact isDigitChar_digitChar (n % 10) (Nat.mod_lt n (by omega))

theorem charsVal_append_digit (xs : List Char) (c : Char) :
    charsVal (xs ++ [c]) = 10 * charsVal xs + (c.toNat - 48) := by
  induction xs with
  | nil => simp [charsVal]
  | cons x xs ih =>
    show (x.toNat - 48) * 10 ^ (xs ++ [c]).length + charsVal (xs ++ [c])
        = 10 * ((x.toNat - 48) * 10 ^ xs.length + charsVal xs) + (c.toNat - 48)
    rw [ih, List.length_append]
    simp only [List.length_cons, List.length_nil, Nat.zero_add]
    ring

theorem charsVal_natChars (n : Nat) : charsVal (natChars n) = n := by
  induction n using Nat.strong_induction_on with
  | _ n ih =>
    by_cases h : n < 10
    · rw [natChars_lt10 h]
      simp [charsVal, digitChar_toNat n h]
    · rw [natChars_ge10 (by omega), charsVal_append_digit,
        ih (n / 10) (Nat.div_lt_self (by omega) (by omega)),
        digitChar_toNat (n % 10) (Nat.mod_lt n (by omega))]
      omega

theorem natChars_length_le : ∀ (k n : Nat), n < 10 ^ (k + 1) →
    (natChars n).length ≤ k + 1 := by
  intro k
  induction k with
  | zero =>
    intro n h
    rw [natChars_lt10 (by simpa using h)]
    simp
  | succ k ih =>
    intro n h
    by_cases h10 : n < 10
    · rw [natChars_lt10 h10]; simp
    · rw [natChars_ge10 (by omega)]
      have hdiv : n / 10 < 10 ^ (k + 1) := by
        rw [Nat.div_lt_iff_lt_mul (by omega)]
        calc n < 10 ^ (k + 2) := h
          _ = 10 ^ (k + 1) * 10 := by ring
      have := ih (n / 10) hdiv
      simp [List.length_append]
      omega

theorem charsVal_lt (l : List Char) (h : ∀ c ∈ l, isDigitChar c = true) :
    charsVal l < 10 ^ l.length := by
  induction l with
  | nil => simp [charsVal]
  | cons c cs ih =>
    have hc := h c (by simp)
    have hcs := ih (fun x hx => h x (by simp [hx]))
    have hv : c.toNat - 48 ≤ 9 := by
      simp [isDigitChar] at hc
      omega
    simp only [charsVal, List.length_cons]
    have h1 : (c.toNat - 48) * 10 ^ cs.length ≤ 9 * 10 ^ cs.length :=
      Nat.mul_le_mul_right _ hv
    have h2 : (10 : Nat) ^ (cs.length + 1) = 10 * 10 ^ cs.length := by ring
    omega

theorem charsVal_replicate_zero (k : Nat) (ds : List Char) :
    charsVal (List.replicate k '0' ++ ds) = charsVal ds := by
  induction k with
  | zero => simp
  | succ k ih =>
    have h0 : ('0'.toNat - 48) = 0 := by decide
    simp only [List.replicate_succ, List.cons_append, charsVal, h0]
    simpa using ih

theorem pad4chars_digits (n : Nat) : ∀ c ∈ pad4chars n, isDigitChar c = true := by
  intro c hc
  rw [pad4chars, List.mem_append] at hc
  cases hc with
  | inl hc =>
    have := List.eq_of_mem_replicate hc
    subst this
    decide
  | inr hc => exact natChars_digits n c hc

theorem pad4chars_length {n : Nat} (h : n ≤ 9999) : (pad4chars n).length = 4 := by
  have hlen : (natChars n).length ≤ 4 := natChars_length_le 3 n (by omega)
  simp [pad4chars, List.length_append, List.length_replicate]
  omega

theorem charsVal_pad4chars (n : Nat) : charsVal (pad4chars n) = n := by
  rw [pad4chars, charsVal_replicate_zero, charsVal_natChars]

theorem listLtB_irrefl : ∀ l : List Char, listLtB l l = false := by
  intro l
  induction l with
  | nil => rfl
  | cons c cs ih => simp [listLtB, ih]

theorem listLtB_cons_iff (x y : Char) (xs ys : List Char) :
    listLtB (x :: xs) (y :: ys) = true ↔
      (x.toNat < y.toNat ∨ (x.toNat = y.toNat ∧ listLtB xs ys = true)) := by
  simp only [listLtB]
  by_cases h1 : x.toNat < y.toNat
  · simp [h1]
  · by_cases h2 : y.toNat < x.toNat
    · simp [h1, h2]
      omega
    · have h3 : x.toNat = y.toNat := by omega
      simp [h1, h2, h3]

theorem listLtB_trans (a : List Char) : ∀ b c, listLtB a b = true → listLtB b c = true →
    listLtB a c = true := by
  induction a with
  | nil =>
    intro b c hab hbc
    cases b with
    | nil => exact absurd hab (by simp [listLtB])
    | cons y ys =>
      cases c with
      | nil => exact absurd hbc (by simp [listLtB])
      | cons z zs => simp [listLtB]
  | cons x xs ih =>
    intro b c hab hbc
    cases b with
    | nil => exact absurd hab (by simp [listLtB])
    | cons y ys =>
      cases c with
      | nil => exact absurd hbc (by simp [listLtB])
      | cons z zs =>
        rw [listLtB_cons_iff] at hab hbc ⊢
        rcases hab with hab | ⟨hab1, hab2⟩
        · rcases hbc with hbc | ⟨hbc1, hbc2⟩
          · exact Or.inl (by omega)
          · exact Or.inl (by omega)
        · rcases hbc with hbc | ⟨hbc1, hbc2⟩
          · exact Or.inl (by omega)
          · exact Or.inr ⟨by omega, ih ys zs hab2 hbc2⟩

theorem listLtB_total (a : List Char) : ∀ b, a = b ∨ listLtB a b = true ∨ listLtB b a = true := by
  induction a with
  | nil =>
    intro b
    cases b with
    | nil => exact Or.inl rfl
    | cons y ys => exact Or.inr (Or.inl (by simp [listLtB]))
  | cons x xs ih =>
    intro b
    cases b with
    | nil => exact Or.inr (Or.inr (by simp [listLtB]))
    | cons y ys =>
      rcases Nat.lt_trichotomy x.toNat y.toNat with h | h | h
      · exact Or.inr (Or.inl ((listLtB_cons_iff x y xs ys).mpr (Or.inl h)))
      · have hxy : x = y := char_eq_of_toNat_eq h
        subst hxy
        rcases ih ys with h2 | h2 | h2
        · exact Or.inl (by rw [h2])
        · exact Or.inr (Or.inl ((listLtB_cons_iff x x xs ys).mpr (Or.inr ⟨rfl, h2⟩)))
        · exact Or.inr (Or.inr ((listLtB_cons_iff x x ys xs).mpr (Or.inr ⟨rfl, h2⟩)))
      · exact Or.inr (Or.inr ((listLtB_cons_iff y x ys xs).mpr (Or.inl h)))

theorem listLtB_append_left (p : List Char) : ∀ a b, listLtB (p ++ a) (p ++ b) = listLtB a b := by
  induction p with
  | nil => intro a b; rfl
  | cons c p ih =>
    intro a b
    simp [listLtB, ih]

theorem listLtB_digits (a : List Char) :
    ∀ b, (∀ c ∈ a, isDigitChar c = true) → (∀ c ∈ b, isDigitChar c = true) →
      a.length = b.length → (listLtB a b = true ↔ charsVal a < charsVal b) := by
  induction a with
  | nil =>
    intro b _ _ hlen
    have hb : b = [] := List.eq_nil_of_length_eq_zero hlen.symm
    subst hb
    simp [listLtB, charsVal]
  | cons x xs ih =>
    intro b ha hb hlen
    cases b with
    | nil => simp at hlen
    | cons y ys =>
      have hlen' : xs.length = ys.length := by simpa using hlen
      have hxd : isDigitChar x = true := ha x (by simp)
      have hyd : isDigitChar y = true := hb y (by simp)
      have hxs : ∀ c ∈ xs, isDigitChar c = true := fun c hc => ha c (by simp [hc])
      have hys : ∀ c ∈ ys, isDigitChar c = true := fun c hc => hb c (by simp [hc])
      have hxb : charsVal xs < 10 ^ xs.length := charsVal_lt xs hxs
      have hyb : charsVal ys < 10 ^ ys.length := charsVal_lt ys hys
      have hx48 : 48 ≤ x.toNat := by simp [isDigitChar] at hxd; omega
      have hy48 : 48 ≤ y.toNat := by simp [isDigitChar] at hyd; omega
      rw [listLtB_cons_iff]
      simp only [charsVal, hlen']
      constructor
      · rintro (h | ⟨h1, h2⟩)
        · have hv : x.toNat - 48 + 1 ≤ y.toNat - 48 := by omega
          calc (x.toNat - 48) * 10 ^ ys.length + charsVal xs
              < (x.toNat - 48) * 10 ^ ys.length + 10 ^ ys.length := by
                rw [← hlen']
                omega
            _ = (x.toNat - 48 + 1) * 10 ^ ys.length := by ring
            _ ≤ (y.toNat - 48) * 10 ^ ys.length := Nat.mul_le_mul_right _ hv
            _ ≤ (y.toNat - 48) * 10 ^ ys.length + charsVal ys := Nat.le_add_right _ _
        · rw [h1]
          have := (ih ys hxs hys hlen').mp h2
          omega
      · intro hval
        rcases Nat.lt_trichotomy x.toNat y.toNat with h | h | h
        · exact Or.inl h
        · refine Or.inr ⟨h, ?_⟩
          rw [(ih ys hxs hys hlen')]
          rw [h] at hval
          omega
        · exfalso
          have hv : y.toNat - 48 + 1 ≤ x.toNat - 48 := by omega
          have : (y.toNat - 48) * 10 ^ ys.length + charsVal ys
              < (x.toNat - 48) * 10 ^ ys.length + charsVal xs := by
            calc (y.toNat - 48) * 10 ^ ys.length + charsVal ys
                < (y.toNat - 48) * 10 ^ ys.length + 10 ^ ys.length := by omega
              _ = (y.toNat - 48 + 1) * 10 ^ ys.length := by ring
              _ ≤ (x.toNat - 48) * 10 ^ ys.length := Nat.mul_le_mul_right _ hv
              _ ≤ (x.toNat - 48) * 10 ^ ys.length + charsVal xs := Nat.le_add_right _ _
          omega

theorem strLtB_irrefl (a : String) : strLtB a a = false := listLtB_irrefl a.data

theorem strLtB_trans {a b c : String} (h1 : strLtB a b = true) (h2 : strLtB b c = true) :
    strLtB a c = true := listLtB_trans a.data b.data c.data h1 h2

theorem strLtB_total (a b : String) : a = b ∨ strLtB a b = true ∨ strLtB b a = true := by
  rcases listLtB_total a.data b.data with h | h | h
  · left
    cases a
    cases b
    exact congrArg String.mk h
  · exact Or.inr (Or.inl h)
  · exact Or.inr (Or.inr h)

theorem foldlMax_spec (xs : List String) : ∀ acc : String,
    (xs.foldl (fun a b => if strLtB a b then b else a) acc = acc ∨
      xs.foldl (fun a b => if strLtB a b then b else a) acc ∈ xs) ∧
    strLtB (xs.foldl (fun a b => if strLtB a b then b else a) acc) acc = false ∧
    (∀ y ∈ xs, strLtB (xs.foldl (fun a b => if strLtB a b then b else a) acc) y = false) := by
  induction xs with
  | nil =>
    intro acc
    refine ⟨Or.inl rfl, strLtB_irrefl acc, ?_⟩
    intro y hy
    simp at hy
  | cons x xs ih =>
    intro acc
    simp only [List.foldl_cons]
    obtain ⟨hmem, hacc, hall⟩ := ih (if strLtB acc x then x else acc)
    have hnotlt : ∀ z : String,
        strLtB (xs.foldl (fun a b => if strLtB a b then b else a)
          (if strLtB acc x then x else acc)) (if strLtB acc x then x else acc) = false →
        True := fun _ _ => trivial
    by_cases hax : strLtB acc x = true
    · rw [if_pos hax] at hmem hacc hall ⊢
      refine ⟨?_, ?_, ?_⟩
      · rcases hmem with h | h
        · exact Or.inr (by simp [h])
        · exact Or.inr (by simp [h])
      · -- not below acc: if it were, trans with acc < x gives below x, contradicting hacc
        by_contra hc
        rw [Bool.not_eq_false] at hc
        have hltx : strLtB (xs.foldl (fun a b => if strLtB a b then b else a) x) x = true :=
          strLtB_trans hc hax
        rw [hacc] at hltx
        exact Bool.noConfusion hltx
      · intro y hy
        rcases List.mem_cons.mp hy with hy | hy
        · subst hy
          exact hacc
        · exact hall y hy
    · rw [if_neg (by simpa using hax)] at hmem hacc hall ⊢
      have hax' : strLtB acc x = false := by
        cases hax2 : strLtB acc x
        · rfl
        · exact absurd hax2 hax
      refine ⟨?_, hacc, ?_⟩
      · rcases hmem with h | h
        · exact Or.inl h
        · exact Or.inr (by simp [h])
      · intro y hy
        rcases List.mem_cons.mp hy with hy | hy
        · subst hy
          -- r is not below y = x: r ≤ acc and acc is not below x
          by_contra hc
          rw [Bool.not_eq_false] at hc
          rcases strLtB_total (xs.foldl (fun a b => if strLtB a b then b else a) acc) acc
            with he | hlt | hgt
          · rw [he] at hc
            rw [hc] at hax'
            exact Bool.noConfusion hax'
          · rw [hacc] at hlt
            exact Bool.noConfusion hlt
          · have := strLtB_trans hgt hc
            rw [this] at hax'
            exact Bool.noConfusion hax'
        · exact hall y hy

theorem maxTicketNumber_spec {l : List String} {M : String}
    (h : maxTicketNumber l = some M) :
    M ∈ l ∧ ∀ y ∈ l, strLtB M y = false := by
  cases l with
  | nil => exact absurd h (by simp [maxTicketNumber])
  | cons x xs =>
    have hM : M = xs.foldl (fun a b => if strLtB a b then b else a) x := by
      simpa [maxTicketNumber] using h.symm
    obtain ⟨hmem, hacc, hall⟩ := foldlMax_spec xs x
    subst hM
    refine ⟨?_, ?_⟩
    · rcases hmem with h | h
      · rw [h]; simp
      · simp [h]
    · intro y hy
      rcases List.mem_cons.mp hy with hy | hy
      · subst hy
        exact hacc
      · exact hall y hy

theorem listIsPfxOf_append (p r : List Char) : listIsPfxOf p (p ++ r) = true := by
  induction p with
  | nil => rfl
  | cons c p ih => simp [listIsPfxOf, ih]

theorem splitAux_no_sep {sep : Char} {l : List Char} (h : ∀ c ∈ l, c ≠ sep) :
    splitAux sep l = (l, []) := by
  induction l with
  | nil => rfl
  | cons c cs ih =>
    have hc : c ≠ sep := h c (by simp)
    have ih' := ih (fun x hx => h x (by simp [hx]))
    simp [splitAux, ih', hc]

theorem splitAux_append_sep (sep : Char) (l₁ l₂ : List Char) (h : ∀ c ∈ l₁, c ≠ sep) :
    splitAux sep (l₁ ++ sep :: l₂)
      = (l₁, (splitAux sep l₂).1 :: (splitAux sep l₂).2) := by
  induction l₁ with
  | nil => simp [splitAux]
  | cons c cs ih =>
    have hc : c ≠ sep := h c (by simp)
    have ih' := ih (fun x hx => h x (by simp [hx]))
    simp [splitAux, ih', hc]

theorem takeWhile_all {p : Char → Bool} {l : List Char} (h : ∀ c ∈ l, p c = true) :
    l.takeWhile p = l := by
  induction l with
  | nil => rfl
  | cons c cs ih =>
    have hc := h c (by simp)
    have ih' := ih (fun x hx => h x (by simp [hx]))
    simp [List.takeWhile, hc, ih']

theorem parseIntDec_digits {l : List Char} (hd : ∀ c ∈ l, isDigitChar c = true)
    (hne : l ≠ []) : parseIntDec (String.mk l) = some (charsVal l) := by
  simp only [parseIntDec, takeWhile_all hd]
  rw [if_neg (by simpa using hne)]

theorem isDigitChar_ne_dash {c : Char} (h : isDigitChar c = true) : c ≠ '-' := by
  intro hc
  subst hc
  exact absurd h (by decide)

theorem ymTail_digits (year month : Nat) :
    ∀ c ∈ (jsSliceLast2 (natToString year)).data
        ++ (padStartStr (natToString month) 2 '0').data,
      isDigitChar c = true := by
  intro c hc
  rw [List.mem_append] at hc
  cases hc with
  | inl hc =>
    have hc' : c ∈ (natChars year).drop ((natChars year).length - 2) := hc
    exact natChars_digits year c (List.mem_of_mem_drop hc')
  | inr hc =>
    have hc' : c ∈ List.replicate (2 - (natChars month).length) '0' ++ natChars month := hc
    rw [List.mem_append] at hc'
    cases hc' with
    | inl hc' =>
      have := List.eq_of_mem_replicate hc'
      subst this
      decide
    | inr hc' => exact natChars_digits month c hc'

theorem mkTicketNumber_data (year month seq : Nat) :
    (mkTicketNumber year month seq).data
      = ((ymPfx year month).data ++ ['-']) ++ pad4chars seq := by
  simp [mkTicketNumber, String.data_append, padStartStr, natToString, pad4chars]

theorem ymPfx_data (year month : Nat) :
    (ymPfx year month).data
      = ['T', 'K', 'T', '-'] ++ ((jsSliceLast2 (natToString year)).data
          ++ (padStartStr (natToString month) 2 '0').data) := by
  simp [ymPfx, String.data_append]

theorem jsStartsWith_mkTicketNumber (year month seq : Nat) :
    jsStartsWith (mkTicketNumber year month seq) (ymPfx year month) = true := by
  have h : (mkTicketNumber year month seq).data
      = (ymPfx year month).data ++ ('-' :: pad4chars seq) := by
    rw [mkTicketNumber_data]
    simp
  simp only [jsStartsWith, h]
  exact listIsPfxOf_append _ _

theorem jsSplit_mkTicketNumber (year month seq : Nat) :
    jsSplit '-' (mkTicketNumber year month seq)
      = [String.mk ['T', 'K', 'T'],
         String.mk ((jsSliceLast2 (natToString year)).data
           ++ (padStartStr (natToString month) 2 '0').data),
         String.mk (pad4chars seq)] := by
  have hdata : (mkTicketNumber year month seq).data
      = ['T', 'K', 'T'] ++ '-' :: (((jsSliceLast2 (natToString year)).data
          ++ (padStartStr (natToString month) 2 '0').data) ++ '-' :: pad4chars seq) := by
    rw [mkTicketNumber_data, ymPfx_data]
    simp
  simp only [jsSplit, hdata]
  rw [splitAux_append_sep _ _ _ (by decide)]
  rw [splitAux_append_sep _ _ _
    (fun c hc => isDigitChar_ne_dash (ymTail_digits year month c hc))]
  rw [splitAux_no_sep (fun c hc => isDigitChar_ne_dash (pad4chars_digits seq c hc))]
  rfl

theorem parseIntDec_pad4chars (seq : Nat) :
    parseIntDec (String.mk (pad4chars seq)) = some seq := by
  have hne : pad4chars seq ≠ [] := by
    rw [pad4chars]
    intro h
    rcases List.append_eq_nil.mp h with ⟨-, h2⟩
    exact natChars_ne_nil seq h2
  rw [parseIntDec_digits (pad4chars_digits seq) hne, charsVal_pad4chars]

theorem strLtB_mkTicketNumber_iff (year month : Nat) {a b : Nat}
    (ha : a ≤ 9999) (hb : b ≤ 9999) :
    (strLtB (mkTicketNumber year month a) (mkTicketNumber year month b) = true) ↔ a < b := by
  have h1 : strLtB (mkTicketNumber year month a) (mkTicketNumber year month b)
      = listLtB (pad4chars a) (pad4chars b) := by
    simp only [strLtB, mkTicketNumber_data]
    exact listLtB_append_left _ _ _
  rw [h1, listLtB_digits (pad4chars a) (pad4chars b) (pad4chars_digits a) (pad4chars_digits b)
    (by rw [pad4chars_length ha, pad4chars_length hb]),
    charsVal_pad4chars, charsVal_pad4chars]

theorem mkTicketNumber_inj (year month : Nat) {a b : Nat}
    (h : mkTicketNumber year month a = mkTicketNumber year month b) : a = b := by
  have hd : pad4chars a = pad4chars b := by
    have hdata := congrArg String.data h
    rw [mkTicketNumber_data, mkTicketNumber_data] at hdata
    exact List.append_cancel_left hdata
  have hv := congrArg charsVal hd
  rwa [charsVal_pad4chars, charsVal_pad4chars] at hv

theorem updateTicket_id_self (db : DB) (id : String) (f : Ticket → Ticket)
    (hf : ∀ u, f u = u) : updateTicket db id f = db := by
  cases db with
  | mk tickets users history =>
    simp only [updateTicket]
    have hfun : (fun t : Ticket => if t.id == id then f t else t) = fun t => t := by
      funext t
      simp [hf]
    rw [hfun]
    simp

/-! ## Claim C1: terminal states and unknown transitions -/

/-- C1 counterexample: a transition request naming the pair
`(QA_TESTING, DEV_IN_PROGRESS)` — absent from the transition table —
returns SUCCESS with the ticket unchanged, instead of failing with an
invalid-transition error: the assign route's `startDevelopment` trigger
on a non-`SUBMITTED` ticket is silently ignored. -/
theorem C1_counterexample :
    specTransitionTable TicketStatus.QA_TESTING TicketStatus.DEV_IN_PROGRESS = false ∧
    (assignPost exC1DB (some exC1PM) "t1" ⟨none, none, some true⟩ 9).1
      = Except.ok ("t1", TicketStatus.QA_TESTING) ∧
    (assignPost exC1DB (some exC1PM) "t1" ⟨none, none, some true⟩ 9).2 = exC1DB := by
  refine ⟨rfl, rfl, ?_⟩
  decide

/-- C1 (amended): terminal states are absorbing under EVERY request of
the system; the status-update, approval and cancellation handlers reject
any request naming a pair absent from the transition table with a 400
error and an unchanged database; but the assignment handler's
`startDevelopment` trigger on an assignable non-`SUBMITTED` ticket —
also a pair absent from the table — is silently ignored: the request
returns success and the database is unchanged, with no error of any
kind. -/
theorem C1_terminal_absorbing_invalid_hard :
    (∀ op db now tid s, statusOf db tid = some s → isTerminal s = true →
      statusOf (step op db now).2 tid = some s) ∧
    (∀ db user id ns reason now t, findTicket db id = some t →
      specTransitionTable t.status ns = false →
      ∃ msg, statusPost db (some user) id ns reason now = (Except.error ⟨400, msg⟩, db)) ∧
    (∀ db user id action reason now t, findTicket db id = some t →
      isTicketApprover user.email = true → t.status ≠ TicketStatus.FOR_PD_APPROVAL →
      approvalsPost db (some user) id action reason now
        = (Except.error ⟨400, "Ticket is not pending approval"⟩, db)) ∧
    (∀ db user id reason now t, findTicket db id = some t → t.submitterId = user.id →
      t.status ≠ TicketStatus.FOR_PD_APPROVAL →
      ticketPatch db (some user) id (some TicketStatus.CANCELLED) reason now
        = (Except.error ⟨400, "Can only cancel tickets awaiting approval"⟩, db)) ∧
    (∀ db user id req now t, user.ticketRole = TicketRole.PROJECT_MANAGER →
      findTicket db id = some t → assignValidStatuses t.status = true →
      t.status ≠ TicketStatus.SUBMITTED → req.developerId = none → req.qaId = none →
      req.startDevelopment = some true →
      assignPost db (some user) id req now = (Except.ok (id, t.status), db)) := by
  refine ⟨step_preserves_terminal, ?_, ?_, ?_, ?_⟩
  · intro db user id ns reason now t hfind hspec
    obtain ⟨h1, h2, h3, h4⟩ := specTable_false_cases hspec
    by_cases hz : statusRouteEnum ns
    · have hval : validateStatusTransition t.status ns user t
          = Except.error ⟨400, "Invalid status transition"⟩ := by
        unfold validateStatusTransition
        rw [if_neg h1, if_neg h2, if_neg h3, if_neg h4]
      exact ⟨"Invalid status transition", by simp [statusPost, hz, hfind, hval]⟩
    · exact ⟨"Validation failed", by simp [statusPost, hz]⟩
  · intro db user id action reason now t hfind happ hst
    simp [approvalsPost, approvalsValidate, happ, hfind, hst]
  · intro db user id reason now t hfind hsub hst
    simp [ticketPatch, hfind, hsub, hst]
  · intro db user id req now t hrole hfind hvalid hnotsub hdev hqa hsd
    simp only [assignPost, hrole, hfind, hdev, hqa, hsd, checkAssignee]
    simp only [hnotsub]
    simp [hvalid]
    rw [updateTicket_id_self db id]
    intro u
    cases u
    rfl

/-- C1 witness: every part of the amended statement instantiated at
concrete inputs. -/
theorem C1_witness :
    statusOf (step (Op.status (some exC1WUser) "t1" TicketStatus.QA_TESTING none) exC1WDB 3).2 "t1"
      = some TicketStatus.DEPLOYED ∧
    (∃ msg, statusPost exC1WDB (some exC1WUser) "t1" TicketStatus.QA_TESTING none 3
      = (Except.error ⟨400, msg⟩, exC1WDB)) ∧
    approvalsPost exC1WDB (some exC1WUser) "t1" ApprovalAction.approve none 3
      = (Except.error ⟨400, "Ticket is not pending approval"⟩, exC1WDB) ∧
    ticketPatch exC1WDB (some exC1WUser) "t1" (some TicketStatus.CANCELLED) none 3
      = (Except.error ⟨400, "Can only cancel tickets awaiting approval"⟩, exC1WDB) ∧
    assignPost exC1WDB (some exC1WUser) "t2" ⟨none, none, some true⟩ 3
      = (Except.ok ("t2", TicketStatus.QA_TESTING), exC1WDB) :=
  ⟨C1_terminal_absorbing_invalid_hard.1 _ exC1WDB 3 "t1" TicketStatus.DEPLOYED rfl rfl,
   C1_terminal_absorbing_invalid_hard.2.1 exC1WDB exC1WUser "t1" TicketStatus.QA_TESTING
     none 3 exC1WTicketD rfl rfl,
   C1_terminal_absorbing_invalid_hard.2.2.1 exC1WDB exC1WUser "t1" ApprovalAction.approve
     none 3 exC1WTicketD rfl (by decide) (by decide),
   C1_terminal_absorbing_invalid_hard.2.2.2.1 exC1WDB exC1WUser "t1" none 3 exC1WTicketD
     rfl (by decide) (by decide),
   C1_terminal_absorbing_invalid_hard.2.2.2.2 exC1WDB exC1WUser "t2" ⟨none, none, some true⟩
     3 exC1WTicketQ (by decide) rfl (by decide) (by decide) rfl rfl rfl⟩

/-! ## Claim C3: one audit entry per successful state change -/

/-- C3: for every request to any state-changing handler (status update,
assignment, approval, submitter cancellation, self-service creation, SAP
creation), the history is append-only (existing entries are never
updated or deleted), every observed status change of a ticket is matched
by exactly one appended `StatusHistoryEntry` whose `fromStatus` is the
state immediately before the change and whose `toStatus` is the state
immediately after (`fromStatus = none` exactly for a creation), and an
entry is appended only when some ticket's status actually changed. -/
theorem C3_audit_append (op : Op) (db : DB) (now : Nat) (hfresh : opFresh op db) :
    AuditConds db (step op db now).2 := by
  cases op with
  | status session id newStatus reason =>
    cases session with
    | none => exact auditConds_refl db
    | some user =>
      simp only [step, statusPost]
      split
      · exact auditConds_refl db
      · split
        · exact auditConds_refl db
        · rename_i ticket hticket
          split
          · exact auditConds_refl db
          · rename_i v hval
            exact auditConds_update_mutate db id _ _ ticket hticket
              (fun _ => rfl) (fun _ => rfl) rfl rfl (validateStatusTransition_ok_ne hval)
  | assign session id req =>
    cases session with
    | none => exact auditConds_refl db
    | some user =>
      simp only [step, assignPost]
      split
      · exact auditConds_refl db
      · split
        · exact auditConds_refl db
        · rename_i ticket hticket
          split
          · exact auditConds_refl db
          · split
            · exact auditConds_refl db
            · rename_i devUpd hdev
              split
              · exact auditConds_refl db
              · rename_i qaUpd hqa
                by_cases hsd : req.startDevelopment.getD false ∧
                    ticket.status = TicketStatus.SUBMITTED
                · simp only [if_pos hsd]
                  refine auditConds_update_mutate db id _ _ ticket hticket
                    (fun _ => rfl) (fun _ => rfl) rfl rfl ?_
                  rw [hsd.2]
                  simp
                · simp only [if_neg hsd]
                  exact auditConds_update_pure db id _ (fun _ => rfl) (fun _ => rfl)
  | approval session id action reason =>
    cases session with
    | none => exact auditConds_refl db
    | some user =>
      simp only [step, approvalsPost]
      split
      · exact auditConds_refl db
      · rename_i tk hvalid
        obtain ⟨hfind, hst⟩ := approvalsValidate_ok hvalid
        cases action with
        | approve =>
          refine auditConds_update_mutate db id _ _ tk hfind
            (fun _ => rfl) (fun _ => rfl) rfl ?_ ?_
          · rw [hst]
          · rw [hst]; simp
        | reject =>
          refine auditConds_update_mutate db id _ _ tk hfind
            (fun _ => rfl) (fun _ => rfl) rfl ?_ ?_
          · rw [hst]
          · rw [hst]; simp
  | patchCancel session id bodyStatus reason =>
    cases session with
    | none => exact auditConds_refl db
    | some user =>
      simp only [step, ticketPatch]
      split
      · exact auditConds_refl db
      · rename_i ticket hticket
        split
        · split
          · exact auditConds_refl db
          · split
            · exact auditConds_refl db
            · rename_i hsub hst
              have hst' : ticket.status = TicketStatus.FOR_PD_APPROVAL := not_not.mp hst
              refine auditConds_update_mutate db id _ _ ticket hticket
                (fun _ => rfl) (fun _ => rfl) rfl ?_ ?_
              · rw [hst']
              · rw [hst']; simp
        · exact auditConds_refl db
  | create session parsed newId year month =>
    cases session with
    | none => exact auditConds_refl db
    | some user =>
      simp only [step, ticketsPost]
      split
      · exact auditConds_refl db
      · split
        · exact auditConds_refl db
        · exact auditConds_create db _ _ hfresh rfl rfl rfl
  | sapCreate apiKey envKey parsed newId year month =>
    simp only [step, sapTicketsPost]
    split
    · exact auditConds_refl db
    · split
      · exact auditConds_refl db
      · split
        · exact auditConds_refl db
        · exact auditConds_create db _ _ hfresh rfl rfl rfl

/-- C3 witness: applying the audit theorem to the concrete creation
yields the single creation entry with `fromStatus = none`. -/
theorem C3_witness :
    ∃ e, (step exC3Op ⟨[], [], []⟩ 4).2.history = ([] : List HistoryEntry) ++ [e] ∧
      e.ticketId = "n1" ∧ e.fromStatus = none ∧
      e.toStatus = TicketStatus.FOR_PD_APPROVAL :=
  (C3_audit_append exC3Op ⟨[], [], []⟩ 4
      (show findTicket ⟨[], [], []⟩ "n1" = none from rfl)).2.2.1 "n1"
    TicketStatus.FOR_PD_APPROVAL rfl rfl

/-! ## Claim C4: concurrency and atomicity of the transition engine -/

/-- C4 counterexample: two concurrent `POST /api/approvals/[id]`
requests with conflicting targets (approve → `SUBMITTED`, reject →
`CANCELLED`) that both read the same pre-state BOTH return success —
neither receives a Conflict error, the second write silently overwrites
the first, and the history records two transitions out of
`FOR_PD_APPROVAL`.  Moreover, stopping after the first request's ticket
update but before its history insert leaves the ticket mutated with no
matching audit entry: the mutation and the audit append are not one
indivisible unit. -/
theorem C4_counterexample :
    (approvalsInterleaved exC4DB exC4U1 exC4U2 "t1" ApprovalAction.approve ApprovalAction.reject
        none (some "duplicate of TKT-2501-0002") 1 2).1.1.isOk = true ∧
    (approvalsInterleaved exC4DB exC4U1 exC4U2 "t1" ApprovalAction.approve ApprovalAction.reject
        none (some "duplicate of TKT-2501-0002") 1 2).1.2.isOk = true ∧
    statusOf (approvalsInterleaved exC4DB exC4U1 exC4U2 "t1" ApprovalAction.approve
        ApprovalAction.reject none (some "duplicate of TKT-2501-0002") 1 2).2 "t1"
      = some TicketStatus.CANCELLED ∧
    (approvalsInterleaved exC4DB exC4U1 exC4U2 "t1" ApprovalAction.approve ApprovalAction.reject
        none (some "duplicate of TKT-2501-0002") 1 2).2.history.length = 2 ∧
    statusOf (approvalsApplyUpdate exC4DB exC4U1 "t1" ApprovalAction.approve none 1) "t1"
      = some TicketStatus.SUBMITTED ∧
    (approvalsApplyUpdate exC4DB exC4U1 "t1" ApprovalAction.approve none 1).history
      = exC4DB.history := by
  refine ⟨rfl, rfl, rfl, rfl, rfl, rfl⟩

/-- C4 (amended): the approvals handler performs no concurrency control
and no transactional coupling: whenever two concurrent conflicting
requests (one approve, one reject with a non-empty reason, both by
approvers) interleave as read-read-commit-commit on a ticket awaiting
approval, both validations succeed (so both callers receive success and
no Conflict error exists), the last write wins (`CANCELLED`), the
history receives both entries; and a crash between the ticket update and
the history insert of the first request leaves the ticket mutated
(`SUBMITTED`) with no audit entry appended. -/
theorem C4_no_conflict_detection (db : DB) (u1 u2 : User) (id : String)
    (reason2 : String) (t : Ticket) (now1 now2 : Nat)
    (hfind : findTicket db id = some t)
    (hst : t.status = TicketStatus.FOR_PD_APPROVAL)
    (h1 : isTicketApprover u1.email = true)
    (h2 : isTicketApprover u2.email = true)
    (hr : reason2 ≠ "") :
    (approvalsInterleaved db u1 u2 id ApprovalAction.approve ApprovalAction.reject
        none (some reason2) now1 now2).1.1 = Except.ok t ∧
    (approvalsInterleaved db u1 u2 id ApprovalAction.approve ApprovalAction.reject
        none (some reason2) now1 now2).1.2 = Except.ok t ∧
    statusOf (approvalsInterleaved db u1 u2 id ApprovalAction.approve ApprovalAction.reject
        none (some reason2) now1 now2).2 id = some TicketStatus.CANCELLED ∧
    (∃ e1 e2, (approvalsInterleaved db u1 u2 id ApprovalAction.approve ApprovalAction.reject
        none (some reason2) now1 now2).2.history = db.history ++ [e1, e2] ∧
      e1.toStatus = TicketStatus.SUBMITTED ∧ e2.toStatus = TicketStatus.CANCELLED) ∧
    statusOf (approvalsApplyUpdate db u1 id ApprovalAction.approve none now1) id
      = some TicketStatus.SUBMITTED ∧
    (approvalsApplyUpdate db u1 id ApprovalAction.approve none now1).history = db.history := by
  have hv1 : approvalsValidate db u1 id ApprovalAction.approve none = Except.ok t := by
    simp [approvalsValidate, h1, hfind, hst]
  have hv2 : approvalsValidate db u2 id ApprovalAction.reject (some reason2) = Except.ok t := by
    simp [approvalsValidate, h2, hfind, hst, jsFalsy, hr]
  have hupd1 : statusOf (approvalsApplyUpdate db u1 id ApprovalAction.approve none now1) id
      = some TicketStatus.SUBMITTED := by
    simp only [approvalsApplyUpdate]
    rw [statusOf_updateTicket_self db id]
    · rw [hfind]; rfl
    · intro u; rfl
  refine ⟨?_, ?_, ?_, ?_, hupd1, rfl⟩
  · simp [approvalsInterleaved, hv1]
  · simp [approvalsInterleaved, hv2]
  · simp only [approvalsInterleaved, hv1, hv2]
    simp only [approvalsApplyUpdate, approvalsAppendHistory]
    rw [statusOf_appendHistory, statusOf_updateTicket_self]
    · rw [findTicket_appendHistory, findTicket_updateTicket_self db id]
      · rw [hfind]; rfl
      · intro u; rfl
    · intro u; rfl
  · refine ⟨⟨id, some TicketStatus.FOR_PD_APPROVAL, TicketStatus.SUBMITTED, u1.id,
        jsOr none "Approved by process owner", now1⟩,
      ⟨id, some TicketStatus.FOR_PD_APPROVAL, TicketStatus.CANCELLED, u2.id,
        jsOr (some reason2) "", now2⟩, ?_, rfl, rfl⟩
    simp only [approvalsInterleaved, hv1, hv2, approvalsAppendHistory, approvalsApplyUpdate]
    simp [history_appendHistory, history_updateTicket]

/-! ## Claim C8: ticket number generation -/

/-- C8 counterexample: the generator itself produces the five-digit
number `TKT-2501-10000` after `TKT-2501-9999`, and on the next call the
string-wise maximum is still `TKT-2501-9999` (lexicographically
`"9999" > "10000"`), so the generator emits `TKT-2501-10000` AGAIN — a
duplicate of an existing ticket number, not the previous maximum plus
one, and not of the four-digit `TKT-YYMM-NNNN` shape. -/
theorem C8_counterexample :
    generateTicketNumber ["TKT-2501-9999"] 2025 1 = "TKT-2501-10000" ∧
    generateTicketNumber ["TKT-2501-9999", "TKT-2501-10000"] 2025 1 = "TKT-2501-10000" ∧
    "TKT-2501-10000" ∈ ["TKT-2501-9999", "TKT-2501-10000"] := by
  refine ⟨by decide, by decide, by decide⟩

/-- C8 (amended): as long as every sequence number already recorded for
the month lies between 1 and 9999 (the four-digit regime), the generator
behaves as specified: the new number is `TKT-YYMM-` followed by the
numeric maximum plus one, it is strictly greater than every existing
sequence number, and it does not collide with any existing ticket
number; the first ticket of a month (no entry with the month's prefix)
gets sequence 1.  Beyond 9999 the string-ordered maximum diverges from
the numeric maximum and uniqueness fails (see the counterexample). -/
theorem C8_monthly_sequence (year month : Nat) (db : List String) (S : List Nat)
    (m : Nat) (db0 : List String)
    (hS : ∀ n ∈ S, 1 ≤ n ∧ n ≤ 9999)
    (hdb : ∀ tn ∈ db, jsStartsWith tn (ymPfx year month) = true →
      ∃ n, n ∈ S ∧ tn = mkTicketNumber year month n)
    (hmem : ∀ n ∈ S, mkTicketNumber year month n ∈ db)
    (hmax : ∀ n ∈ S, n ≤ m) (hm : m ∈ S)
    (hdb0 : ∀ tn ∈ db0, jsStartsWith tn (ymPfx year month) = false) :
    generateTicketNumber db year month = mkTicketNumber year month (m + 1) ∧
    (∀ n ∈ S, n < m + 1) ∧
    mkTicketNumber year month (m + 1) ∉ db ∧
    generateTicketNumber db0 year month = mkTicketNumber year month 1 := by
  have hm9999 : m ≤ 9999 := (hS m hm).2
  have hmemflt : mkTicketNumber year month m
      ∈ db.filter (fun tn => jsStartsWith tn (ymPfx year month)) :=
    List.mem_filter.mpr ⟨hmem m hm, jsStartsWith_mkTicketNumber year month m⟩
  obtain ⟨M, hM⟩ : ∃ M,
      maxTicketNumber (db.filter (fun tn => jsStartsWith tn (ymPfx year month))) = some M := by
    cases hc : db.filter (fun tn => jsStartsWith tn (ymPfx year month)) with
    | nil => rw [hc] at hmemflt; simp at hmemflt
    | cons x xs => exact ⟨_, rfl⟩
  obtain ⟨hMmem, hMub⟩ := maxTicketNumber_spec hM
  obtain ⟨n₀, hn₀S, hn₀eq⟩ :=
    hdb M (List.mem_filter.mp hMmem).1 (List.mem_filter.mp hMmem).2
  have hn₀9999 : n₀ ≤ 9999 := (hS n₀ hn₀S).2
  have hn₀m : n₀ = m := by
    have hub := hMub (mkTicketNumber year month m) hmemflt
    rw [hn₀eq] at hub
    have hnlt : ¬ (n₀ < m) := by
      intro hlt
      rw [(strLtB_mkTicketNumber_iff year month hn₀9999 hm9999).mpr hlt] at hub
      exact Bool.noConfusion hub
    have := hmax n₀ hn₀S
    omega
  subst hn₀m
  have hgen : generateTicketNumber db year month = mkTicketNumber year month (n₀ + 1) := by
    simp only [generateTicketNumber]
    rw [hM, hn₀eq]
    simp only [jsSplit_mkTicketNumber, List.getD_cons_succ, List.getD_cons_zero,
      parseIntDec_pad4chars]
    rfl
  have hnotin : mkTicketNumber year month (n₀ + 1) ∉ db := by
    intro hin
    obtain ⟨n, hnS, hneq⟩ := hdb _ hin (jsStartsWith_mkTicketNumber year month (n₀ + 1))
    have h1 := mkTicketNumber_inj year month hneq
    have h2 := hmax n hnS
    omega
  have hflt0 : db0.filter (fun tn => jsStartsWith tn (ymPfx year month)) = [] := by
    rw [List.filter_eq_nil_iff]
    intro a ha
    simp [hdb0 a ha]
  have hgen0 : generateTicketNumber db0 year month = mkTicketNumber year month 1 := by
    simp only [generateTicketNumber, hflt0, maxTicketNumber]
    rfl
  refine ⟨hgen, ?_, hnotin, hgen0⟩
  intro n hn
  have := hmax n hn
  omega

/-- C8 witness: the amended statement at a concrete October 2025
database holding sequences 1 and 2 plus an unrelated ticket number, and
a database with no entry for the month. -/
theorem C8_witness :
    generateTicketNumber ["TKT-2510-0001", "TKT-2510-0002", "TKT-2509-0033"] 2025 10
      = mkTicketNumber 2025 10 3 ∧
    (∀ n ∈ [1, 2], n < 3) ∧
    mkTicketNumber 2025 10 3 ∉ ["TKT-2510-0001", "TKT-2510-0002", "TKT-2509-0033"] ∧
    generateTicketNumber ["TKT-2509-0033"] 2025 10 = mkTicketNumber 2025 10 1 :=
  C8_monthly_sequence 2025 10 ["TKT-2510-0001", "TKT-2510-0002", "TKT-2509-0033"]
    [1, 2] 2 ["TKT-2509-0033"] (by decide) (by decide) (by decide) (by decide)
    (by decide) (by decide)

/-- C4 witness: the amended statement at the concrete two-approver
scenario. -/
theorem C4_witness :
    (approvalsInterleaved exC4DB exC4U1 exC4U2 "t1" ApprovalAction.approve ApprovalAction.reject
        none (some "dup") 1 2).1.1 = Except.ok exC4Ticket ∧
    (approvalsInterleaved exC4DB exC4U1 exC4U2 "t1" ApprovalAction.approve ApprovalAction.reject
        none (some "dup") 1 2).1.2 = Except.ok exC4Ticket ∧
    statusOf (approvalsInterleaved exC4DB exC4U1 exC4U2 "t1" ApprovalAction.approve
        ApprovalAction.reject none (some "dup") 1 2).2 "t1" = some TicketStatus.CANCELLED ∧
    (∃ e1 e2, (approvalsInterleaved exC4DB exC4U1 exC4U2 "t1" ApprovalAction.approve
        ApprovalAction.reject none (some "dup") 1 2).2.history = exC4DB.history ++ [e1, e2] ∧
      e1.toStatus = TicketStatus.SUBMITTED ∧ e2.toStatus = TicketStatus.CANCELLED) ∧
    statusOf (approvalsApplyUpdate exC4DB exC4U1 "t1" ApprovalAction.approve none 1) "t1"
      = some TicketStatus.SUBMITTED ∧
    (approvalsApplyUpdate exC4DB exC4U1 "t1" ApprovalAction.approve none 1).history
      = exC4DB.history :=
  C4_no_conflict_detection exC4DB exC4U1 exC4U2 "t1" "dup" exC4Ticket 1 2
    (by decide) (by decide) (by decide) (by decide) (by decide)

end PDIS
